import Mathlib

/-!
Shallow embedding of `rasa/core/events/__init__.py`: the event variant set,
the dict codec (`as_dict` / `from_parameters`), the story-string codec
(`as_story_string` / `from_story_string`), tag resolution
(`Event.resolve_by_type`) and batch decoding (`deserialise_events`).

Python values flowing through the module are modelled by the `PyVal`
inductive; Python dicts are insertion-ordered association lists with string
keys; Python exceptions are modelled with `Except PyErr`.  The ambient
nondeterminism (`time.time()`, `uuid.uuid1()`) is threaded explicitly
through a `Ctx` value.
-/

namespace Rasa

/-- Model of the Python values handled by the events module: `None`,
booleans, numbers (`int`/`float` merged into `Rat`), strings, lists and
string-keyed dicts (insertion ordered). -/
inductive PyVal where
  | none : PyVal
  | bool (b : Bool) : PyVal
  | num (q : Rat) : PyVal
  | str (s : String) : PyVal
  | list (xs : List PyVal) : PyVal
  | dict (entries : List (String × PyVal)) : PyVal
  deriving Repr

mutual

/-- Structural boolean equality on `PyVal` (deriving is unavailable for
nested inductives, so it is spelled out). -/
def PyVal.beq : PyVal → PyVal → Bool
  | .none, .none => true
  | .bool a, .bool b => a == b
  | .num a, .num b => a == b
  | .str a, .str b => a == b
  | .list xs, .list ys => PyVal.beqList xs ys
  | .dict xs, .dict ys => PyVal.beqDict xs ys
  | _, _ => false

/-- Elementwise `PyVal.beq` on lists. -/
def PyVal.beqList : List PyVal → List PyVal → Bool
  | [], [] => true
  | x :: xs, y :: ys => PyVal.beq x y && PyVal.beqList xs ys
  | _, _ => false

/-- Elementwise `PyVal.beq` on dict entry lists. -/
def PyVal.beqDict : List (String × PyVal) → List (String × PyVal) → Bool
  | [], [] => true
  | (k, v) :: xs, (l, w) :: ys => k == l && PyVal.beq v w && PyVal.beqDict xs ys
  | _, _ => false

end

mutual

theorem PyVal.eq_of_beq : ∀ a b : PyVal, PyVal.beq a b = true → a = b
  | .none, .none, _ => rfl
  | .none, .bool _, h => nomatch h
  | .none, .num _, h => nomatch h
  | .none, .str _, h => nomatch h
  | .none, .list _, h => nomatch h
  | .none, .dict _, h => nomatch h
  | .bool _, .none, h => nomatch h
  | .bool a, .bool b, h => congrArg PyVal.bool (by simpa using (show (a == b) = true from h))
  | .bool _, .num _, h => nomatch h
  | .bool _, .str _, h => nomatch h
  | .bool _, .list _, h => nomatch h
  | .bool _, .dict _, h => nomatch h
  | .num _, .none, h => nomatch h
  | .num _, .bool _, h => nomatch h
  | .num a, .num b, h => congrArg PyVal.num (by simpa using (show (a == b) = true from h))
  | .num _, .str _, h => nomatch h
  | .num _, .list _, h => nomatch h
  | .num _, .dict _, h => nomatch h
  | .str _, .none, h => nomatch h
  | .str _, .bool _, h => nomatch h
  | .str _, .num _, h => nomatch h
  | .str a, .str b, h => congrArg PyVal.str (by simpa using (show (a == b) = true from h))
  | .str _, .list _, h => nomatch h
  | .str _, .dict _, h => nomatch h
  | .list _, .none, h => nomatch h
  | .list _, .bool _, h => nomatch h
  | .list _, .num _, h => nomatch h
  | .list _, .str _, h => nomatch h
  | .list xs, .list ys, h => congrArg PyVal.list (PyVal.eqList_of_beqList xs ys h)
  | .list _, .dict _, h => nomatch h
  | .dict _, .none, h => nomatch h
  | .dict _, .bool _, h => nomatch h
  | .dict _, .num _, h => nomatch h
  | .dict _, .str _, h => nomatch h
  | .dict _, .list _, h => nomatch h
  | .dict xs, .dict ys, h => congrArg PyVal.dict (PyVal.eqDict_of_beqDict xs ys h)

theorem PyVal.eqList_of_beqList : ∀ xs ys : List PyVal,
    PyVal.beqList xs ys = true → xs = ys
  | [], [], _ => rfl
  | [], _ :: _, h => nomatch h
  | _ :: _, [], h => nomatch h
  | x :: xs, y :: ys, h => by
    rw [PyVal.beqList, Bool.and_eq_true] at h
    rw [PyVal.eq_of_beq x y h.1, PyVal.eqList_of_beqList xs ys h.2]

theorem PyVal.eqDict_of_beqDict : ∀ xs ys : List (String × PyVal),
    PyVal.beqDict xs ys = true → xs = ys
  | [], [], _ => rfl
  | [], _ :: _, h => nomatch h
  | _ :: _, [], h => nomatch h
  | (k, v) :: xs, (l, w) :: ys, h => by
    rw [PyVal.beqDict, Bool.and_eq_true, Bool.and_eq_true] at h
    have hk : k = l := by simpa using h.1.1
    rw [hk, PyVal.eq_of_beq v w h.1.2, PyVal.eqDict_of_beqDict xs ys h.2]

end

mutual

theorem PyVal.beq_refl : ∀ a : PyVal, PyVal.beq a a = true
  | .none => rfl
  | .bool b => by simp [PyVal.beq]
  | .num q => by simp [PyVal.beq]
  | .str s => by simp [PyVal.beq]
  | .list xs => PyVal.beqList_refl xs
  | .dict xs => PyVal.beqDict_refl xs

theorem PyVal.beqList_refl : ∀ xs : List PyVal, PyVal.beqList xs xs = true
  | [] => rfl
  | x :: xs => by
    rw [PyVal.beqList, Bool.and_eq_true]
    exact ⟨PyVal.beq_refl x, PyVal.beqList_refl xs⟩

theorem PyVal.beqDict_refl : ∀ xs : List (String × PyVal),
    PyVal.beqDict xs xs = true
  | [] => rfl
  | (k, v) :: xs => by
    rw [PyVal.beqDict, Bool.and_eq_true, Bool.and_eq_true]
    exact ⟨⟨by simp, PyVal.beq_refl v⟩, PyVal.beqDict_refl xs⟩

end

instance : DecidableEq PyVal := fun a b =>
  if h : PyVal.beq a b = true then isTrue (PyVal.eq_of_beq a b h)
  else isFalse (fun he => by cases he; exact h (PyVal.beq_refl a))

theorem PyVal.beq_iff_eq (a b : PyVal) : PyVal.beq a b = true ↔ a = b :=
  ⟨PyVal.eq_of_beq a b, fun he => by cases he; exact PyVal.beq_refl a⟩

/-- A Python dict value: insertion-ordered association list. -/
abbrev PyDict := List (String × PyVal)

/-- Model of the Python exceptions that can escape the events module. -/
inductive PyErr where
  | valueError (msg : String) : PyErr
  | typeError (msg : String) : PyErr
  | attributeError (msg : String) : PyErr
  deriving DecidableEq, Repr

/-- Python truthiness for the modelled values. -/
def pyTruthy : PyVal → Bool
  | .none => false
  | .bool b => b
  | .num q => q != 0
  | .str s => s != ""
  | .list xs => !xs.isEmpty
  | .dict entries => !entries.isEmpty

/-- Model of the Python `a or b` expression on values. -/
def pyOr (a b : PyVal) : PyVal := if pyTruthy a then a else b

/-- Model of `d.get(k, default)` on a dict represented as an assoc list
(first binding of the key wins; Python dicts have unique keys). -/
def dictGetD (d : PyDict) (k : String) (default : PyVal) : PyVal :=
  match d with
  | [] => default
  | (k', v) :: rest => if k' = k then v else dictGetD rest k default

/-- Model of `d.get(k)` (default `None`). -/
def dictGet (d : PyDict) (k : String) : PyVal := dictGetD d k PyVal.none

/-- Model of `k in d` for a dict. -/
def hasKey (d : PyDict) (k : String) : Bool := d.any (fun kv => kv.1 = k)

/-- Model of `d[k] = v`: overwrite in place if the key exists, else append
(Python dicts keep the original insertion position on overwrite). -/
def dictSet (d : PyDict) (k : String) (v : PyVal) : PyDict :=
  if hasKey d k then d.map (fun kv => if kv.1 = k then (k, v) else kv)
  else d ++ [(k, v)]

/-- Model of `d.update(u)`: set every binding of `u` in order. -/
def dictUpdate (d : PyDict) (u : PyDict) : PyDict :=
  u.foldl (fun acc kv => dictSet acc kv.1 kv.2) d

/-- Model of `v.get(k, default)` where the receiver is an arbitrary value:
raises `AttributeError` when the receiver is not a dict (in particular when
it is `None`), like Python attribute lookup on a non-dict. -/
def pyGetE (v : PyVal) (k : String) (default : PyVal) : Except PyErr PyVal :=
  match v with
  | .dict d => .ok (dictGetD d k default)
  | .none => .error (.attributeError "NoneType object has no attribute get")
  | _ => .error (.attributeError "object has no attribute get")

/-- Total variant of dict lookup on an arbitrary value, used where the
source only ever applies it to values that are dicts (`self.intent` after
construction, for example); non-dict receivers give `None`. -/
def valGet (v : PyVal) (k : String) : PyVal :=
  match v with
  | .dict d => dictGetD d k PyVal.none
  | _ => PyVal.none

/-- The list payload of a value (`[x for x in v]` where `v` is a list). -/
def valList : PyVal → List PyVal
  | .list xs => xs
  | _ => []

/-- Modelled from the spec: `rasa.core.utils.remove_none_values` (the
`utils` module is not part of the provided source) drops the keys of a
dict whose value is `None`; other values pass through. -/
def remove_none_values : PyVal → PyVal
  | .dict entries => .dict (entries.filter (fun kv => !PyVal.beq kv.2 PyVal.none))
  | v => v

/-- Modelled from the spec: the external `jsonpickle.encode` collaborator
is used by the source only inside equality and hash computations, where
all that matters is that it is an injective encoding of the value; it is
modelled as the identity embedding. -/
def jsonpickle_encode (v : PyVal) : PyVal := v

/-- Model of a Python `datetime` object, identified by its ISO
representation (`isoformat` is the only observation the source makes). -/
structure DateTime where
  iso : String
  deriving DecidableEq, Repr

/-- Modelled from the spec: the external `dateutil.parser.parse`
collaborator.  The source only ever feeds it strings that were produced by
`datetime.isoformat`, which `dateutil` parses back faithfully, so string
input is modelled as succeeding with the corresponding `DateTime`;
non-string input (in particular `None` for a missing `date_time` field)
raises a `TypeError`, as `dateutil` does. -/
def dateutil_parse : PyVal → Except PyErr DateTime
  | .str s => .ok ⟨s⟩
  | _ => .error (.typeError "Parser must be a str or character stream, not NoneType")

/-- The ambient effects threaded through construction and decoding:
`now` models `time.time()` and `fresh` models `str(uuid.uuid1())`. -/
structure Ctx where
  now : Rat
  fresh : String
  deriving DecidableEq, Repr

/-- The concrete `Event` subclasses of the module, in definition order;
`Event.resolve_by_type` scans them by `type_name`. -/
inductive EventClass where
  | userUttered
  | botUttered
  | slotSet
  | restarted
  | userUtteranceReverted
  | allSlotsReset
  | reminderScheduled
  | reminderCancelled
  | actionReverted
  | storyExported
  | followupAction
  | conversationPaused
  | conversationResumed
  | actionExecuted
  | agentUttered
  | form
  | formValidation
  | actionExecutionRejected
  deriving DecidableEq, Repr

/-- The `type_name` class attribute of each variant. -/
def EventClass.type_name : EventClass → String
  | .userUttered => "user"
  | .botUttered => "bot"
  | .slotSet => "slot"
  | .restarted => "restart"
  | .userUtteranceReverted => "rewind"
  | .allSlotsReset => "reset_slots"
  | .reminderScheduled => "reminder"
  | .reminderCancelled => "cancel_reminder"
  | .actionReverted => "undo"
  | .storyExported => "export"
  | .followupAction => "followup"
  | .conversationPaused => "pause"
  | .conversationResumed => "resume"
  | .actionExecuted => "action"
  | .agentUttered => "agent"
  | .form => "form"
  | .formValidation => "form_validation"
  | .actionExecutionRejected => "action_execution_rejected"

/-- Modelled from the spec: `utils.all_subclasses(Event)` (the `utils`
module is not part of the provided source) returns every concrete `Event`
subclass defined in the module. -/
def allEventClasses : List EventClass :=
  [.userUttered, .botUttered, .slotSet, .restarted, .userUtteranceReverted,
   .allSlotsReset, .reminderScheduled, .reminderCancelled, .actionReverted,
   .storyExported, .followupAction, .conversationPaused,
   .conversationResumed, .actionExecuted, .agentUttered, .form,
   .formValidation, .actionExecutionRejected]

/-- Events with their stored (post-`__init__`) attribute values.  Every
variant carries the base attributes `timestamp` and `metadata` set by
`Event.__init__`; variant payload fields mirror the instance attributes of
the corresponding class. -/
inductive Event where
  | userUttered (text intent entities input_channel message_id : PyVal)
      (timestamp metadata parse_data : PyVal)
  | botUttered (text data : PyVal) (timestamp metadata : PyVal)
  | slotSet (key value : PyVal) (timestamp metadata : PyVal)
  | restarted (timestamp metadata : PyVal)
  | userUtteranceReverted (timestamp metadata : PyVal)
  | allSlotsReset (timestamp metadata : PyVal)
  | reminderScheduled (action_name : PyVal) (trigger_date_time : DateTime)
      (name : PyVal) (kill_on_user_message : PyVal) (timestamp metadata : PyVal)
  | reminderCancelled (action_name : PyVal) (timestamp metadata : PyVal)
  | actionReverted (timestamp metadata : PyVal)
  | storyExported (path : PyVal) (timestamp metadata : PyVal)
  | followupAction (action_name : PyVal) (timestamp metadata : PyVal)
  | conversationPaused (timestamp metadata : PyVal)
  | conversationResumed (timestamp metadata : PyVal)
  | actionExecuted (action_name policy confidence : PyVal)
      (timestamp metadata : PyVal)
  | agentUttered (text data : PyVal) (timestamp metadata : PyVal)
  | form (name : PyVal) (timestamp metadata : PyVal)
  | formValidation (validate : PyVal) (timestamp metadata : PyVal)
  | actionExecutionRejected (action_name policy confidence : PyVal)
      (timestamp metadata : PyVal)
  deriving DecidableEq, Repr

/-- The class of an event instance. -/
def Event.cls : Event → EventClass
  | .userUttered .. => .userUttered
  | .botUttered .. => .botUttered
  | .slotSet .. => .slotSet
  | .restarted .. => .restarted
  | .userUtteranceReverted .. => .userUtteranceReverted
  | .allSlotsReset .. => .allSlotsReset
  | .reminderScheduled .. => .reminderScheduled
  | .reminderCancelled .. => .reminderCancelled
  | .actionReverted .. => .actionReverted
  | .storyExported .. => .storyExported
  | .followupAction .. => .followupAction
  | .conversationPaused .. => .conversationPaused
  | .conversationResumed .. => .conversationResumed
  | .actionExecuted .. => .actionExecuted
  | .agentUttered .. => .agentUttered
  | .form .. => .form
  | .formValidation .. => .formValidation
  | .actionExecutionRejected .. => .actionExecutionRejected

/-- The stored `timestamp` attribute of an event. -/
def Event.timestampOf : Event → PyVal
  | .userUttered _ _ _ _ _ ts _ _ => ts
  | .botUttered _ _ ts _ => ts
  | .slotSet _ _ ts _ => ts
  | .restarted ts _ => ts
  | .userUtteranceReverted ts _ => ts
  | .allSlotsReset ts _ => ts
  | .reminderScheduled _ _ _ _ ts _ => ts
  | .reminderCancelled _ ts _ => ts
  | .actionReverted ts _ => ts
  | .storyExported _ ts _ => ts
  | .followupAction _ ts _ => ts
  | .conversationPaused ts _ => ts
  | .conversationResumed ts _ => ts
  | .actionExecuted _ _ _ ts _ => ts
  | .agentUttered _ _ ts _ => ts
  | .form _ ts _ => ts
  | .formValidation _ ts _ => ts
  | .actionExecutionRejected _ _ _ ts _ => ts

/-- The stored `_metadata` attribute of an event (the `metadata` property
returns it unchanged once `__init__` has run). -/
def Event.metadataOf : Event → PyVal
  | .userUttered _ _ _ _ _ _ md _ => md
  | .botUttered _ _ _ md => md
  | .slotSet _ _ _ md => md
  | .restarted _ md => md
  | .userUtteranceReverted _ md => md
  | .allSlotsReset _ md => md
  | .reminderScheduled _ _ _ _ _ md => md
  | .reminderCancelled _ _ md => md
  | .actionReverted _ md => md
  | .storyExported _ _ md => md
  | .followupAction _ _ md => md
  | .conversationPaused _ md => md
  | .conversationResumed _ md => md
  | .actionExecuted _ _ _ _ md => md
  | .agentUttered _ _ _ md => md
  | .form _ _ md => md
  | .formValidation _ _ md => md
  | .actionExecutionRejected _ _ _ _ md => md

/-- Model of `Event.__init__`'s line `self.timestamp = timestamp or
time.time()`: any falsy timestamp argument is replaced by the clock. -/
def initTimestamp (timestamp : PyVal) (now : Rat) : PyVal :=
  pyOr timestamp (.num now)

/-- Model of the line of `Event.__init__` that normalises a falsy
metadata argument to an empty dict. -/
def initMetadata (metadata : PyVal) : PyVal :=
  pyOr metadata (.dict [])

/-- Constructor of `UserUttered` (all defaults explicit: callers pass
`PyVal.none` for omitted arguments).  Mirrors `UserUttered.__init__`:
`intent`/`entities` are normalised by truthiness, the base init runs, and
a falsy `parse_data` is replaced by the synthesised dict. -/
def Event.mkUserUttered (text intent entities parse_data timestamp
    input_channel message_id metadata : PyVal) (now : Rat) : Event :=
  let intent' := pyOr intent (.dict [])
  let entities' := pyOr entities (.list [])
  let ts := initTimestamp timestamp now
  let md := initMetadata metadata
  let pd := if pyTruthy parse_data then parse_data else
    .dict [("intent", intent'), ("entities", entities'), ("text", text),
           ("message_id", message_id), ("metadata", md)]
  .userUttered text intent' entities' input_channel message_id ts md pd

/-- Constructor of `BotUttered` (argument order `text, data, metadata,
timestamp` as in the source). -/
def Event.mkBotUttered (text data metadata timestamp : PyVal) (now : Rat) :
    Event :=
  .botUttered text (pyOr data (.dict [])) (initTimestamp timestamp now)
    (initMetadata metadata)

/-- Constructor of `SlotSet`. -/
def Event.mkSlotSet (key value timestamp metadata : PyVal) (now : Rat) :
    Event :=
  .slotSet key value (initTimestamp timestamp now) (initMetadata metadata)

/-- Constructor of `Restarted`. -/
def Event.mkRestarted (timestamp metadata : PyVal) (now : Rat) : Event :=
  .restarted (initTimestamp timestamp now) (initMetadata metadata)

/-- Constructor of `UserUtteranceReverted`. -/
def Event.mkUserUtteranceReverted (timestamp metadata : PyVal) (now : Rat) :
    Event :=
  .userUtteranceReverted (initTimestamp timestamp now) (initMetadata metadata)

/-- Constructor of `AllSlotsReset`. -/
def Event.mkAllSlotsReset (timestamp metadata : PyVal) (now : Rat) : Event :=
  .allSlotsReset (initTimestamp timestamp now) (initMetadata metadata)

/-- Model of `ReminderScheduled.__init__`'s line `self.name = name if name
is not None else str(uuid.uuid1())`: the `is not None` check (not
truthiness) decides whether a fresh uuid is generated. -/
def reminderName (name : PyVal) (fresh : String) : PyVal :=
  match name with
  | .none => .str fresh
  | v => v

/-- Constructor of `ReminderScheduled`. -/
def Event.mkReminderScheduled (action_name : PyVal)
    (trigger_date_time : DateTime)
    (name kill_on_user_message timestamp metadata : PyVal)
    (now : Rat) (fresh : String) : Event :=
  .reminderScheduled action_name trigger_date_time
    (reminderName name fresh)
    kill_on_user_message (initTimestamp timestamp now) (initMetadata metadata)

/-- Constructor of `ReminderCancelled`. -/
def Event.mkReminderCancelled (action_name timestamp metadata : PyVal)
    (now : Rat) : Event :=
  .reminderCancelled action_name (initTimestamp timestamp now)
    (initMetadata metadata)

/-- Constructor of `ActionReverted`. -/
def Event.mkActionReverted (timestamp metadata : PyVal) (now : Rat) : Event :=
  .actionReverted (initTimestamp timestamp now) (initMetadata metadata)

/-- Constructor of `StoryExported`. -/
def Event.mkStoryExported (path timestamp metadata : PyVal) (now : Rat) :
    Event :=
  .storyExported path (initTimestamp timestamp now) (initMetadata metadata)

/-- Constructor of `FollowupAction`. -/
def Event.mkFollowupAction (name timestamp metadata : PyVal) (now : Rat) :
    Event :=
  .followupAction name (initTimestamp timestamp now) (initMetadata metadata)

/-- Constructor of `ConversationPaused`. -/
def Event.mkConversationPaused (timestamp metadata : PyVal) (now : Rat) :
    Event :=
  .conversationPaused (initTimestamp timestamp now) (initMetadata metadata)

/-- Constructor of `ConversationResumed`. -/
def Event.mkConversationResumed (timestamp metadata : PyVal) (now : Rat) :
    Event :=
  .conversationResumed (initTimestamp timestamp now) (initMetadata metadata)

/-- Constructor of `ActionExecuted` (the always-`False` `unpredictable`
attribute carries no information and is not stored). -/
def Event.mkActionExecuted (action_name policy confidence timestamp
    metadata : PyVal) (now : Rat) : Event :=
  .actionExecuted action_name policy confidence (initTimestamp timestamp now)
    (initMetadata metadata)

/-- Constructor of `AgentUttered`. -/
def Event.mkAgentUttered (text data timestamp metadata : PyVal) (now : Rat) :
    Event :=
  .agentUttered text data (initTimestamp timestamp now) (initMetadata metadata)

/-- Constructor of `Form`. -/
def Event.mkForm (name timestamp metadata : PyVal) (now : Rat) : Event :=
  .form name (initTimestamp timestamp now) (initMetadata metadata)

/-- Constructor of `FormValidation`. -/
def Event.mkFormValidation (validate timestamp metadata : PyVal) (now : Rat) :
    Event :=
  .formValidation validate (initTimestamp timestamp now)
    (initMetadata metadata)

/-- Constructor of `ActionExecutionRejected`. -/
def Event.mkActionExecutionRejected (action_name policy confidence timestamp
    metadata : PyVal) (now : Rat) : Event :=
  .actionExecutionRejected action_name policy confidence
    (initTimestamp timestamp now) (initMetadata metadata)

/-- Like `valGet`, but with an explicit default (`v.get(k, default)`). -/
def valGetD (v : PyVal) (k : String) (default : PyVal) : PyVal :=
  match v with
  | .dict d => dictGetD d k default
  | _ => default

/-- A hex digit character, lowercase, as Python's `json` emits. -/
def hexDigitChar (n : Nat) : Char :=
  if n < 10 then Char.ofNat (48 + n) else Char.ofNat (87 + n)

/-- Four lowercase hex digits of a number below `0x10000`. -/
def hex4 (n : Nat) : String :=
  String.mk [hexDigitChar (n / 4096 % 16), hexDigitChar (n / 256 % 16),
             hexDigitChar (n / 16 % 16), hexDigitChar (n % 16)]

/-- A `\uXXXX` escape. -/
def uEscape (n : Nat) : String := "\\u" ++ hex4 n

/-- Model of how Python's `json.dumps` escapes one character of a string:
quotes, backslashes and control characters are always escaped; characters
at and above `U+0080` are `\u`-escaped exactly when `ensure_ascii` is on
(with surrogate pairs above `U+FFFF`), and kept literal otherwise. -/
def jsonEscapeChar (ensure_ascii : Bool) (c : Char) : String :=
  if c = '"' then "\\\""
  else if c = '\\' then "\\\\"
  else if c = '\n' then "\\n"
  else if c = '\t' then "\\t"
  else if c = '\r' then "\\r"
  else if c.toNat = 8 then "\\b"
  else if c.toNat = 12 then "\\f"
  else if c.toNat < 32 then uEscape c.toNat
  else if ensure_ascii && 128 ≤ c.toNat then
    if c.toNat < 65536 then uEscape c.toNat
    else uEscape (55296 + (c.toNat - 65536) / 1024) ++
         uEscape (56320 + (c.toNat - 65536) % 1024)
  else String.singleton c

/-- A JSON string literal for `s` under the given `ensure_ascii` mode. -/
def jsonQuote (ensure_ascii : Bool) (s : String) : String :=
  "\"" ++ String.join (s.toList.map (jsonEscapeChar ensure_ascii)) ++ "\""

/-- Rendering of a number by `json.dumps`.  The module only ever dumps
integral numbers, rendered exactly; the non-integral branch approximates
Python's float repr and is never reached by the source's payloads. -/
def ratDumps (q : Rat) : String :=
  if q.den = 1 then toString q.num else toString q

mutual

/-- Model of `json.dumps(v, ensure_ascii=...)` with the default
separators `", "` and `": "`. -/
def jsonDumps (ensure_ascii : Bool) : PyVal → String
  | .none => "null"
  | .bool true => "true"
  | .bool false => "false"
  | .num q => ratDumps q
  | .str s => jsonQuote ensure_ascii s
  | .list xs => "[" ++ jsonDumpsList ensure_ascii xs ++ "]"
  | .dict es => "\x7b" ++ jsonDumpsEntries ensure_ascii es ++ "\x7d"

/-- Comma-joined dumps of list elements. -/
def jsonDumpsList (ensure_ascii : Bool) : List PyVal → String
  | [] => ""
  | [x] => jsonDumps ensure_ascii x
  | x :: xs => jsonDumps ensure_ascii x ++ ", " ++ jsonDumpsList ensure_ascii xs

/-- Comma-joined dumps of dict entries. -/
def jsonDumpsEntries (ensure_ascii : Bool) : List (String × PyVal) → String
  | [] => ""
  | [(k, v)] => jsonQuote ensure_ascii k ++ ": " ++ jsonDumps ensure_ascii v
  | (k, v) :: es => jsonQuote ensure_ascii k ++ ": " ++
      jsonDumps ensure_ascii v ++ ", " ++ jsonDumpsEntries ensure_ascii es

end

/-- Model of Python `str()` as used in the module's f-strings and string
returns (containers approximated by their JSON rendering). -/
def pyStr : PyVal → String
  | .none => "None"
  | .bool true => "True"
  | .bool false => "False"
  | .num q => ratDumps q
  | .str s => s
  | v => jsonDumps false v

/-- How `json.dumps` renders a non-string dict key (`None`, booleans and
numbers are coerced; unhashable values cannot be dict keys in Python, so
the container cases are unreachable). -/
def pyJsonKey : PyVal → String
  | .str s => s
  | .none => "null"
  | .bool true => "true"
  | .bool false => "false"
  | .num q => ratDumps q
  | _ => ""

/-- Model of each variant's `__eq__` (cross-variant `isinstance` checks
always fail since no concrete variant subclasses another). -/
def Event.eq : Event → Event → Bool
  | .userUttered t i e _ _ _ _ _, .userUttered t' i' e' _ _ _ _ _ =>
      PyVal.beq t t' && PyVal.beq (valGet i "name") (valGet i' "name") &&
      PyVal.beqList ((valList e).map jsonpickle_encode)
        ((valList e').map jsonpickle_encode)
  | .botUttered t d _ md, .botUttered t' d' _ md' =>
      PyVal.beq t t' &&
      PyVal.beq (jsonpickle_encode (remove_none_values d))
        (jsonpickle_encode (remove_none_values d')) &&
      PyVal.beq (jsonpickle_encode (remove_none_values md))
        (jsonpickle_encode (remove_none_values md'))
  | .slotSet k v _ _, .slotSet k' v' _ _ =>
      PyVal.beq k k' && PyVal.beq v v'
  | .restarted _ _, .restarted _ _ => true
  | .userUtteranceReverted _ _, .userUtteranceReverted _ _ => true
  | .allSlotsReset _ _, .allSlotsReset _ _ => true
  | .reminderScheduled _ _ n _ _ _, .reminderScheduled _ _ n' _ _ _ =>
      PyVal.beq n n'
  | .reminderCancelled _ _ _, .reminderCancelled _ _ _ => true
  | .actionReverted _ _, .actionReverted _ _ => true
  | .storyExported _ _ _, .storyExported _ _ _ => true
  | .followupAction a _ _, .followupAction a' _ _ => PyVal.beq a a'
  | .conversationPaused _ _, .conversationPaused _ _ => true
  | .conversationResumed _ _, .conversationResumed _ _ => true
  | .actionExecuted a _ _ _ _, .actionExecuted a' _ _ _ _ => PyVal.beq a a'
  | .agentUttered t d _ _, .agentUttered t' d' _ _ =>
      PyVal.beq t t' &&
      PyVal.beq (jsonpickle_encode d) (jsonpickle_encode d')
  | .form n _ _, .form n' _ _ => PyVal.beq n n'
  | .formValidation _ _ _, .formValidation _ _ _ => true
  | .actionExecutionRejected a _ _ _ _, .actionExecutionRejected a' _ _ _ _ =>
      PyVal.beq a a'
  | _, _ => false

/-- Model of each variant's `__hash__` as the value the source passes to
Python's `hash` builtin (the hash function itself is opaque; equal keys
give equal hashes and, for the key shapes the module uses, distinct keys
give distinct hashes). -/
def Event.hashKey : Event → PyVal
  | .userUttered t i e _ _ _ _ _ =>
      .list [t, valGet i "name", jsonpickle_encode e]
  | .botUttered t d _ md =>
      .list [t, jsonpickle_encode (remove_none_values d),
             jsonpickle_encode (remove_none_values md)]
  | .slotSet k v _ _ => .list [k, jsonpickle_encode v]
  | .restarted _ _ => .num 32143124312
  | .userUtteranceReverted _ _ => .num 32143124315
  | .allSlotsReset _ _ => .num 32143124316
  | .reminderScheduled a dt n k _ _ => .list [a, .str dt.iso, k, n]
  | .reminderCancelled a _ _ => a
  | .actionReverted _ _ => .num 32143124318
  | .storyExported _ _ _ => .num 32143124319
  | .followupAction a _ _ => a
  | .conversationPaused _ _ => .num 32143124313
  | .conversationResumed _ _ => .num 32143124314
  | .actionExecuted a _ _ _ _ => a
  | .agentUttered t d _ _ => .list [t, jsonpickle_encode d]
  | .form n _ _ => n
  | .formValidation v _ _ => v
  | .actionExecutionRejected a _ _ _ _ => a

/-- Model of `Event.as_dict`: always `event` and `timestamp`, and
`metadata` only when the metadata is truthy (non-empty). -/
def base_as_dict (tag : String) (ts md : PyVal) : PyDict :=
  [("event", .str tag), ("timestamp", ts)] ++
  (if pyTruthy md then [("metadata", md)] else [])

/-- Model of `ReminderScheduled._data_obj`. -/
def reminderDataObj (action_name : PyVal) (dt : DateTime)
    (name kill_on_user_message : PyVal) : PyDict :=
  [("action", action_name), ("date_time", .str dt.iso), ("name", name),
   ("kill_on_user_msg", kill_on_user_message)]

/-- Model of each variant's `as_dict`: the base dict updated with the
variant-specific fields exactly as the overrides do (note that
`UserUttered.as_dict` and `BotUttered.as_dict` put `metadata` into the
update unconditionally, and `ReminderCancelled` and `StoryExported` do not
override `as_dict` at all). -/
def Event.as_dict : Event → PyDict
  | .userUttered t _ _ ic mid ts md pd =>
      dictUpdate (base_as_dict "user" ts md)
        [("text", t), ("parse_data", pd), ("input_channel", ic),
         ("message_id", mid), ("metadata", md)]
  | .botUttered t d ts md =>
      dictUpdate (base_as_dict "bot" ts md)
        [("text", t), ("data", d), ("metadata", md)]
  | .slotSet k v ts md =>
      dictUpdate (base_as_dict "slot" ts md) [("name", k), ("value", v)]
  | .restarted ts md => base_as_dict "restart" ts md
  | .userUtteranceReverted ts md => base_as_dict "rewind" ts md
  | .allSlotsReset ts md => base_as_dict "reset_slots" ts md
  | .reminderScheduled a dt n k ts md =>
      dictUpdate (base_as_dict "reminder" ts md) (reminderDataObj a dt n k)
  | .reminderCancelled _ ts md => base_as_dict "cancel_reminder" ts md
  | .actionReverted ts md => base_as_dict "undo" ts md
  | .storyExported _ ts md => base_as_dict "export" ts md
  | .followupAction a ts md =>
      dictUpdate (base_as_dict "followup" ts md) [("name", a)]
  | .conversationPaused ts md => base_as_dict "pause" ts md
  | .conversationResumed ts md => base_as_dict "resume" ts md
  | .actionExecuted a p c ts md =>
      dictUpdate (base_as_dict "action" ts md)
        [("name", a), ("policy", p), ("confidence", c)]
  | .agentUttered t d ts md =>
      dictUpdate (base_as_dict "agent" ts md) [("text", t), ("data", d)]
  | .form n ts md =>
      dictUpdate (base_as_dict "form" ts md) [("name", n)]
  | .formValidation v ts md =>
      dictUpdate (base_as_dict "form_validation" ts md) [("validate", v)]
  | .actionExecutionRejected a p c ts md =>
      dictUpdate (base_as_dict "action_execution_rejected" ts md)
        [("name", a), ("policy", p), ("confidence", c)]

/-- Model of each variant's `as_story_string` (the non-end-to-end path:
the `e2e=True` branch of `UserUttered` delegates to the excluded markdown
collaborator and is not modelled).  `None` returns are `Option.none`.
Only `SlotSet` passes `ensure_ascii=False` to `json.dumps`; the other
keyed variants use the default (ASCII-escaping) mode. -/
def Event.as_story_string : Event → Option String
  | .userUttered t i e _ _ _ _ _ =>
      if pyTruthy i then
        let ent_string := if pyTruthy e then
            jsonDumps false (.dict ((valList e).map
              (fun ent => (pyJsonKey (valGet ent "entity"),
                           valGet ent "value"))))
          else ""
        some (pyStr (valGetD i "name" (.str "")) ++ ent_string)
      else
        match t with
        | .none => Option.none
        | v => some (pyStr v)
  | .botUttered .. => Option.none
  | .slotSet k v _ _ =>
      some ("slot" ++ jsonDumps false (.dict [(pyJsonKey k, v)]))
  | .restarted _ _ => some "restart"
  | .userUtteranceReverted _ _ => some "rewind"
  | .allSlotsReset _ _ => some "reset_slots"
  | .reminderScheduled a dt n k _ _ =>
      some ("reminder" ++ jsonDumps true (.dict (reminderDataObj a dt n k)))
  | .reminderCancelled a _ _ =>
      some ("cancel_reminder" ++ jsonDumps true (.dict [("action", a)]))
  | .actionReverted _ _ => some "undo"
  | .storyExported _ _ _ => some "export"
  | .followupAction a _ _ =>
      some ("followup" ++ jsonDumps true (.dict [("name", a)]))
  | .conversationPaused _ _ => some "pause"
  | .conversationResumed _ _ => some "resume"
  | .actionExecuted a _ _ _ _ =>
      (match a with
       | .none => Option.none
       | v => some (pyStr v))
  | .agentUttered .. => Option.none
  | .form n _ _ =>
      some ("form" ++ jsonDumps true (.dict [("name", n)]))
  | .formValidation .. => Option.none
  | .actionExecutionRejected .. => Option.none

/-- Model of each variant's `_from_story_string`.  Variants that do not
override it inherit `Event._from_story_string`, which calls the class with
two positional arguments `parameters.get("timestamp")` and
`parameters.get("metadata")` — for `BotUttered`, `AgentUttered`,
`FormValidation` and `ActionExecutionRejected` those positions are the
classes' first two `__init__` parameters (`text`/`data`, `text`/`data`,
`validate`/`timestamp`, `action_name`/`policy`), which the model mirrors
faithfully. -/
def EventClass.fromStoryString (c : EventClass) (parameters : PyDict)
    (ctx : Ctx) : Except PyErr (Option (List Event)) :=
  match c with
  | .userUttered => do
      let pd := dictGet parameters "parse_data"
      let intent ← pyGetE pd "intent" PyVal.none
      let entities ← pyGetE pd "entities" (PyVal.list [])
      pure (some [Event.mkUserUttered (dictGet parameters "text") intent
        entities pd (dictGet parameters "timestamp")
        (dictGet parameters "input_channel")
        (dictGet parameters "message_id")
        (dictGet parameters "metadata") ctx.now])
  | .botUttered =>
      .ok (some [Event.mkBotUttered (dictGet parameters "timestamp")
        (dictGet parameters "metadata") PyVal.none PyVal.none ctx.now])
  | .slotSet =>
      .ok (if parameters.isEmpty then Option.none
           else some (parameters.map (fun kv =>
             Event.mkSlotSet (.str kv.1) kv.2 PyVal.none PyVal.none ctx.now)))
  | .restarted =>
      .ok (some [Event.mkRestarted (dictGet parameters "timestamp")
        (dictGet parameters "metadata") ctx.now])
  | .userUtteranceReverted =>
      .ok (some [Event.mkUserUtteranceReverted (dictGet parameters "timestamp")
        (dictGet parameters "metadata") ctx.now])
  | .allSlotsReset =>
      .ok (some [Event.mkAllSlotsReset (dictGet parameters "timestamp")
        (dictGet parameters "metadata") ctx.now])
  | .reminderScheduled => do
      let trigger_date_time ← dateutil_parse (dictGet parameters "date_time")
      pure (some [Event.mkReminderScheduled (dictGet parameters "action")
        trigger_date_time (dictGet parameters "name")
        (dictGetD parameters "kill_on_user_msg" (.bool true))
        (dictGet parameters "timestamp") (dictGet parameters "metadata")
        ctx.now ctx.fresh])
  | .reminderCancelled =>
      .ok (some [Event.mkReminderCancelled (dictGet parameters "action")
        (dictGet parameters "timestamp") (dictGet parameters "metadata")
        ctx.now])
  | .actionReverted =>
      .ok (some [Event.mkActionReverted (dictGet parameters "timestamp")
        (dictGet parameters "metadata") ctx.now])
  | .storyExported =>
      .ok (some [Event.mkStoryExported (dictGet parameters "path")
        (dictGet parameters "timestamp") (dictGet parameters "metadata")
        ctx.now])
  | .followupAction =>
      .ok (some [Event.mkFollowupAction (dictGet parameters "name")
        (dictGet parameters "timestamp") (dictGet parameters "metadata")
        ctx.now])
  | .conversationPaused =>
      .ok (some [Event.mkConversationPaused (dictGet parameters "timestamp")
        (dictGet parameters "metadata") ctx.now])
  | .conversationResumed =>
      .ok (some [Event.mkConversationResumed (dictGet parameters "timestamp")
        (dictGet parameters "metadata") ctx.now])
  | .actionExecuted =>
      .ok (some [Event.mkActionExecuted (dictGet parameters "name")
        (dictGet parameters "policy") (dictGet parameters "confidence")
        (dictGet parameters "timestamp") (dictGet parameters "metadata")
        ctx.now])
  | .agentUttered =>
      .ok (some [Event.mkAgentUttered (dictGet parameters "timestamp")
        (dictGet parameters "metadata") PyVal.none PyVal.none ctx.now])
  | .form =>
      .ok (some [Event.mkForm (dictGet parameters "name")
        (dictGet parameters "timestamp") (dictGet parameters "metadata")
        ctx.now])
  | .formValidation =>
      .ok (some [Event.mkFormValidation (dictGet parameters "timestamp")
        (dictGet parameters "metadata") PyVal.none ctx.now])
  | .actionExecutionRejected =>
      .ok (some [Event.mkActionExecutionRejected
        (dictGet parameters "timestamp") (dictGet parameters "metadata")
        PyVal.none PyVal.none PyVal.none ctx.now])

/-- Model of the inherited `Event._from_parameters`: delegate to the
class's `_from_story_string`, warn when it yields several events, return
the first (or no event for an empty list; a `None` return would hit
`len(None)` and raise `TypeError`, which no reachable class does). -/
def defaultFromParameters (c : EventClass) (parameters : PyDict)
    (ctx : Ctx) : Except PyErr (Option Event) := do
  let result ← EventClass.fromStoryString c parameters ctx
  match result with
  | Option.none => .error (.typeError "object of type NoneType has no len")
  | some events => pure events.head?

/-- Model of each class's `_from_parameters`: `BotUttered`, `SlotSet`,
`AgentUttered`, `FormValidation` and `ActionExecutionRejected` override
it (their `try/except KeyError` wrappers are unreachable because `.get`
never raises `KeyError`); every other class inherits the default. -/
def EventClass.fromParameters (c : EventClass) (parameters : PyDict)
    (ctx : Ctx) : Except PyErr (Option Event) :=
  match c with
  | .botUttered =>
      .ok (some (Event.mkBotUttered (dictGet parameters "text")
        (dictGet parameters "data") (dictGet parameters "metadata")
        (dictGet parameters "timestamp") ctx.now))
  | .slotSet =>
      .ok (some (Event.mkSlotSet (dictGet parameters "name")
        (dictGet parameters "value") (dictGet parameters "timestamp")
        (dictGet parameters "metadata") ctx.now))
  | .agentUttered =>
      .ok (some (Event.mkAgentUttered (dictGet parameters "text")
        (dictGet parameters "data") (dictGet parameters "timestamp")
        (dictGet parameters "metadata") ctx.now))
  | .formValidation =>
      .ok (some (Event.mkFormValidation (dictGet parameters "validate")
        (dictGet parameters "timestamp") (dictGet parameters "metadata")
        ctx.now))
  | .actionExecutionRejected =>
      .ok (some (Event.mkActionExecutionRejected (dictGet parameters "name")
        (dictGet parameters "policy") (dictGet parameters "confidence")
        (dictGet parameters "timestamp") (dictGet parameters "metadata")
        ctx.now))
  | c' => defaultFromParameters c' parameters ctx

/-- Model of `Event.resolve_by_type`: scan the subclasses for a matching
`type_name`; the legacy `topic` tag resolves to no class; otherwise fall
back to `default` when supplied, else raise `ValueError`.  The tag value
arrives untyped from the parameter dict, hence `PyVal`. -/
def Event.resolve_by_type (type_name : PyVal) (default : Option EventClass) :
    Except PyErr (Option EventClass) :=
  match allEventClasses.find?
      (fun c => PyVal.beq (.str (EventClass.type_name c)) type_name) with
  | some c => .ok (some c)
  | Option.none =>
    if PyVal.beq type_name (.str "topic") then .ok Option.none
    else
      match default with
      | some d => .ok (some d)
      | Option.none =>
          .error (.valueError ("Unknown event name '" ++ pyStr type_name
            ++ "'."))

/-- Model of `Event.from_parameters`: read the `event` tag (`is None`
means no event), resolve it, and delegate to the resolved class's
`_from_parameters`. -/
def Event.from_parameters (parameters : PyDict) (default : Option EventClass)
    (ctx : Ctx) : Except PyErr (Option Event) :=
  let event_name := dictGet parameters "event"
  if event_name = PyVal.none then .ok Option.none
  else do
    let event_class ← Event.resolve_by_type event_name default
    match event_class with
    | Option.none => pure Option.none
    | some c => EventClass.fromParameters c parameters ctx

/-- Model of `Event.from_story_string`: resolve the tag and delegate to
the class's `_from_story_string` (no resolution means `None`). -/
def Event.from_story_string (event_name : String) (parameters : PyDict)
    (default : Option EventClass) (ctx : Ctx) :
    Except PyErr (Option (List Event)) := do
  let event_class ← Event.resolve_by_type (.str event_name) default
  match event_class with
  | Option.none => pure Option.none
  | some c => EventClass.fromStoryString c parameters ctx

/-- Model of `deserialise_events`: entries without an `event` key are
skipped; entries decoding to no event are dropped (with a logged warning);
any exception raised while decoding an entry propagates. -/
def deserialise_events (serialized_events : List PyDict) (ctx : Ctx) :
    Except PyErr (List Event) :=
  match serialized_events with
  | [] => .ok []
  | e :: rest =>
    if hasKey e "event" then do
      let event ← Event.from_parameters e Option.none ctx
      let tail ← deserialise_events rest ctx
      match event with
      | some ev => pure (ev :: tail)
      | Option.none => pure tail
    else deserialise_events rest ctx

def okEventEq (r : Except PyErr (Option Event)) (e : Event) : Bool :=
  match r with
  | .ok (some e') => Event.eq e' e
  | _ => false

def dictRoundTripOk (ctx' : Ctx) (e : Event) : Bool :=
  okEventEq (Event.from_parameters (Event.as_dict e) Option.none ctx') e

theorem pyOr_pyOr (a b : PyVal) : pyOr (pyOr a b) b = pyOr a b := by
  cases h : pyTruthy a <;> simp [pyOr, h]

theorem initMetadata_initMetadata (md : PyVal) :
    initMetadata (initMetadata md) = initMetadata md := pyOr_pyOr md _

theorem reminderName_reminderName (nm : PyVal) (f f' : String) :
    reminderName (reminderName nm f) f' = reminderName nm f := by
  cases nm <;> rfl

theorem base_as_dict_true {md : PyVal} (h : pyTruthy md = true)
    (tag : String) (ts : PyVal) : base_as_dict tag ts md =
    [("event", .str tag), ("timestamp", ts), ("metadata", md)] := by
  unfold base_as_dict
  rw [h]
  rfl

theorem base_as_dict_false {md : PyVal} (h : pyTruthy md = false)
    (tag : String) (ts : PyVal) : base_as_dict tag ts md =
    [("event", .str tag), ("timestamp", ts)] := by
  unfold base_as_dict
  rw [h]
  rfl

theorem mkSlotSet_expand (k v ts md : PyVal) (now : Rat) :
    Event.mkSlotSet k v ts md now =
    .slotSet k v (initTimestamp ts now) (initMetadata md) := rfl

theorem mkRestarted_expand (ts md : PyVal) (now : Rat) :
    Event.mkRestarted ts md now =
    .restarted (initTimestamp ts now) (initMetadata md) := rfl

theorem mkUserUttered_none_pd (t i en ts ic mid md : PyVal) (now : Rat) :
    Event.mkUserUttered t i en PyVal.none ts ic mid md now =
    .userUttered t (pyOr i (.dict [])) (pyOr en (.list [])) ic mid
      (initTimestamp ts now) (initMetadata md)
      (.dict [("intent", pyOr i (.dict [])), ("entities", pyOr en (.list [])),
              ("text", t), ("message_id", mid),
              ("metadata", initMetadata md)]) := rfl

theorem mkBotUttered_expand (t d md ts : PyVal) (now : Rat) :
    Event.mkBotUttered t d md ts now =
    .botUttered t (pyOr d (.dict [])) (initTimestamp ts now)
      (initMetadata md) := rfl

theorem eq_slotSet_congr (k v a b c d : PyVal) :
    Event.eq (.slotSet k v a b) (.slotSet k v c d) = true := by
  show (PyVal.beq k k && PyVal.beq v v) = true
  simp only [PyVal.beq_refl, Bool.and_self]

theorem eq_userUttered_congr (t i e ic mid ts md pd ic' mid' ts' md' pd' :
    PyVal) : Event.eq (.userUttered t i e ic mid ts md pd)
      (.userUttered t i e ic' mid' ts' md' pd') = true := by
  show (PyVal.beq t t && PyVal.beq (valGet i "name") (valGet i "name") &&
    PyVal.beqList ((valList e).map jsonpickle_encode)
      ((valList e).map jsonpickle_encode)) = true
  simp only [PyVal.beq_refl, PyVal.beqList_refl, Bool.and_self]

theorem eq_botUttered_congr (t d md ts ts' : PyVal) :
    Event.eq (.botUttered t d ts md) (.botUttered t d ts' md) = true := by
  show (PyVal.beq t t &&
    PyVal.beq (jsonpickle_encode (remove_none_values d))
      (jsonpickle_encode (remove_none_values d)) &&
    PyVal.beq (jsonpickle_encode (remove_none_values md))
      (jsonpickle_encode (remove_none_values md))) = true
  simp only [PyVal.beq_refl, Bool.and_self]

theorem eq_userUttered_renorm (t i en ic mid ts md pd ic' mid' ts' md' pd' :
    PyVal) : Event.eq
      (.userUttered t (pyOr (pyOr i (.dict [])) (.dict []))
        (pyOr (pyOr en (.list [])) (.list [])) ic mid ts md pd)
      (.userUttered t (pyOr i (.dict [])) (pyOr en (.list []))
        ic' mid' ts' md' pd') = true := by
  rw [pyOr_pyOr, pyOr_pyOr]
  exact eq_userUttered_congr t (pyOr i (.dict [])) (pyOr en (.list []))
    ic mid ts md pd ic' mid' ts' md' pd'

theorem eq_botUttered_renorm (t d md ts ts' : PyVal) :
    Event.eq
      (.botUttered t (pyOr (pyOr d (.dict [])) (.dict [])) ts
        (initMetadata (initMetadata md)))
      (.botUttered t (pyOr d (.dict [])) ts' (initMetadata md)) = true := by
  rw [pyOr_pyOr, initMetadata_initMetadata]
  exact eq_botUttered_congr t (pyOr d (.dict [])) (initMetadata md) ts ts'

theorem rt_slotSet (now : Rat) (c' : Ctx) (k v ts md : PyVal) :
    dictRoundTripOk c' (Event.mkSlotSet k v ts md now) = true := by
  unfold dictRoundTripOk
  rw [mkSlotSet_expand]
  cases hmd : pyTruthy (initMetadata md) <;> simp only [Event.as_dict]
  · rw [base_as_dict_false hmd]
    apply eq_slotSet_congr <;> exact PyVal.none
  · rw [base_as_dict_true hmd]
    apply eq_slotSet_congr <;> exact PyVal.none

theorem rt_restarted (now : Rat) (c' : Ctx) (ts md : PyVal) :
    dictRoundTripOk c' (Event.mkRestarted ts md now) = true := by
  unfold dictRoundTripOk
  rw [mkRestarted_expand]
  cases hmd : pyTruthy (initMetadata md) <;> simp only [Event.as_dict]
  · rw [base_as_dict_false hmd]
    rfl
  · rw [base_as_dict_true hmd]
    rfl

theorem rt_userUttered (now : Rat) (c' : Ctx) (t i en ts ic mid md : PyVal) :
    dictRoundTripOk c'
      (Event.mkUserUttered t i en PyVal.none ts ic mid md now) = true := by
  unfold dictRoundTripOk
  rw [mkUserUttered_none_pd]
  cases hmd : pyTruthy (initMetadata md) <;> simp only [Event.as_dict]
  · rw [base_as_dict_false hmd]
    apply eq_userUttered_renorm <;> exact PyVal.none
  · rw [base_as_dict_true hmd]
    apply eq_userUttered_renorm <;> exact PyVal.none

theorem rt_botUttered (now : Rat) (c' : Ctx) (t d md ts : PyVal) :
    dictRoundTripOk c' (Event.mkBotUttered t d md ts now) = true := by
  unfold dictRoundTripOk
  rw [mkBotUttered_expand]
  cases hmd : pyTruthy (initMetadata md) <;> simp only [Event.as_dict]
  · rw [base_as_dict_false hmd]
    apply eq_botUttered_renorm <;> exact PyVal.none
  · rw [base_as_dict_true hmd]
    apply eq_botUttered_renorm <;> exact PyVal.none

def okSingleEventEq (r : Except PyErr (Option (List Event))) (e : Event) :
    Bool :=
  match r with
  | .ok (some [e']) => Event.eq e' e
  | _ => false

theorem mkUserUtteranceReverted_expand (ts md : PyVal) (now : Rat) :
    Event.mkUserUtteranceReverted ts md now =
    .userUtteranceReverted (initTimestamp ts now) (initMetadata md) := rfl

theorem mkAllSlotsReset_expand (ts md : PyVal) (now : Rat) :
    Event.mkAllSlotsReset ts md now =
    .allSlotsReset (initTimestamp ts now) (initMetadata md) := rfl

theorem mkActionReverted_expand (ts md : PyVal) (now : Rat) :
    Event.mkActionReverted ts md now =
    .actionReverted (initTimestamp ts now) (initMetadata md) := rfl

theorem mkConversationPaused_expand (ts md : PyVal) (now : Rat) :
    Event.mkConversationPaused ts md now =
    .conversationPaused (initTimestamp ts now) (initMetadata md) := rfl

theorem mkConversationResumed_expand (ts md : PyVal) (now : Rat) :
    Event.mkConversationResumed ts md now =
    .conversationResumed (initTimestamp ts now) (initMetadata md) := rfl

theorem mkReminderScheduled_expand (a : PyVal) (dt : DateTime)
    (nm kill ts md : PyVal) (now : Rat) (fresh : String) :
    Event.mkReminderScheduled a dt nm kill ts md now fresh =
    .reminderScheduled a dt (reminderName nm fresh) kill
      (initTimestamp ts now) (initMetadata md) := rfl

theorem mkReminderCancelled_expand (a ts md : PyVal) (now : Rat) :
    Event.mkReminderCancelled a ts md now =
    .reminderCancelled a (initTimestamp ts now) (initMetadata md) := rfl

theorem mkStoryExported_expand (p ts md : PyVal) (now : Rat) :
    Event.mkStoryExported p ts md now =
    .storyExported p (initTimestamp ts now) (initMetadata md) := rfl

theorem mkFollowupAction_expand (a ts md : PyVal) (now : Rat) :
    Event.mkFollowupAction a ts md now =
    .followupAction a (initTimestamp ts now) (initMetadata md) := rfl

theorem mkActionExecuted_expand (a p c ts md : PyVal) (now : Rat) :
    Event.mkActionExecuted a p c ts md now =
    .actionExecuted a p c (initTimestamp ts now) (initMetadata md) := rfl

theorem mkAgentUttered_expand (t d ts md : PyVal) (now : Rat) :
    Event.mkAgentUttered t d ts md now =
    .agentUttered t d (initTimestamp ts now) (initMetadata md) := rfl

theorem mkForm_expand (n ts md : PyVal) (now : Rat) :
    Event.mkForm n ts md now =
    .form n (initTimestamp ts now) (initMetadata md) := rfl

theorem mkFormValidation_expand (v ts md : PyVal) (now : Rat) :
    Event.mkFormValidation v ts md now =
    .formValidation v (initTimestamp ts now) (initMetadata md) := rfl

theorem mkActionExecutionRejected_expand (a p c ts md : PyVal) (now : Rat) :
    Event.mkActionExecutionRejected a p c ts md now =
    .actionExecutionRejected a p c (initTimestamp ts now)
      (initMetadata md) := rfl

theorem eq_reminderScheduled_renorm (a a' : PyVal) (dt dt' : DateTime)
    (nm : PyVal) (f f' : String) (k k' ts md ts' md' : PyVal) :
    Event.eq
      (.reminderScheduled a dt (reminderName (reminderName nm f) f') k ts md)
      (.reminderScheduled a' dt' (reminderName nm f) k' ts' md') = true := by
  rw [reminderName_reminderName]
  show PyVal.beq (reminderName nm f) (reminderName nm f) = true
  exact PyVal.beq_refl _

theorem eq_followupAction_congr (a ts md ts' md' : PyVal) :
    Event.eq (.followupAction a ts md) (.followupAction a ts' md') = true := by
  show PyVal.beq a a = true
  exact PyVal.beq_refl a

theorem eq_actionExecuted_congr (a p c ts md p' c' ts' md' : PyVal) :
    Event.eq (.actionExecuted a p c ts md)
      (.actionExecuted a p' c' ts' md') = true := by
  show PyVal.beq a a = true
  exact PyVal.beq_refl a

theorem eq_actionExecutionRejected_congr (a p c ts md p' c' ts' md' : PyVal) :
    Event.eq (.actionExecutionRejected a p c ts md)
      (.actionExecutionRejected a p' c' ts' md') = true := by
  show PyVal.beq a a = true
  exact PyVal.beq_refl a

theorem eq_agentUttered_congr (t d ts md ts' md' : PyVal) :
    Event.eq (.agentUttered t d ts md) (.agentUttered t d ts' md') = true := by
  show (PyVal.beq t t &&
    PyVal.beq (jsonpickle_encode d) (jsonpickle_encode d)) = true
  simp only [PyVal.beq_refl, Bool.and_self]

theorem eq_form_congr (n ts md ts' md' : PyVal) :
    Event.eq (.form n ts md) (.form n ts' md') = true := by
  show PyVal.beq n n = true
  exact PyVal.beq_refl n

theorem rt_userUtteranceReverted (now : Rat) (c' : Ctx) (ts md : PyVal) :
    dictRoundTripOk c' (Event.mkUserUtteranceReverted ts md now) = true := by
  unfold dictRoundTripOk
  rw [mkUserUtteranceReverted_expand]
  cases hmd : pyTruthy (initMetadata md) <;> simp only [Event.as_dict]
  · rw [base_as_dict_false hmd]
    rfl
  · rw [base_as_dict_true hmd]
    rfl

theorem rt_allSlotsReset (now : Rat) (c' : Ctx) (ts md : PyVal) :
    dictRoundTripOk c' (Event.mkAllSlotsReset ts md now) = true := by
  unfold dictRoundTripOk
  rw [mkAllSlotsReset_expand]
  cases hmd : pyTruthy (initMetadata md) <;> simp only [Event.as_dict]
  · rw [base_as_dict_false hmd]
    rfl
  · rw [base_as_dict_true hmd]
    rfl

theorem rt_actionReverted (now : Rat) (c' : Ctx) (ts md : PyVal) :
    dictRoundTripOk c' (Event.mkActionReverted ts md now) = true := by
  unfold dictRoundTripOk
  rw [mkActionReverted_expand]
  cases hmd : pyTruthy (initMetadata md) <;> simp only [Event.as_dict]
  · rw [base_as_dict_false hmd]
    rfl
  · rw [base_as_dict_true hmd]
    rfl

theorem rt_conversationPaused (now : Rat) (c' : Ctx) (ts md : PyVal) :
    dictRoundTripOk c' (Event.mkConversationPaused ts md now) = true := by
  unfold dictRoundTripOk
  rw [mkConversationPaused_expand]
  cases hmd : pyTruthy (initMetadata md) <;> simp only [Event.as_dict]
  · rw [base_as_dict_false hmd]
    rfl
  · rw [base_as_dict_true hmd]
    rfl

theorem rt_conversationResumed (now : Rat) (c' : Ctx) (ts md : PyVal) :
    dictRoundTripOk c' (Event.mkConversationResumed ts md now) = true := by
  unfold dictRoundTripOk
  rw [mkConversationResumed_expand]
  cases hmd : pyTruthy (initMetadata md) <;> simp only [Event.as_dict]
  · rw [base_as_dict_false hmd]
    rfl
  · rw [base_as_dict_true hmd]
    rfl

theorem rt_reminderScheduled (now : Rat) (c' : Ctx) (fresh : String)
    (a : PyVal) (dt : DateTime) (nm kill ts md : PyVal) :
    dictRoundTripOk c'
      (Event.mkReminderScheduled a dt nm kill ts md now fresh) = true := by
  unfold dictRoundTripOk
  rw [mkReminderScheduled_expand]
  cases hmd : pyTruthy (initMetadata md) <;> simp only [Event.as_dict]
  · rw [base_as_dict_false hmd]
    apply eq_reminderScheduled_renorm <;> first
      | exact PyVal.none
      | exact DateTime.mk ""
  · rw [base_as_dict_true hmd]
    apply eq_reminderScheduled_renorm <;> first
      | exact PyVal.none
      | exact DateTime.mk ""

theorem rt_reminderCancelled (now : Rat) (c' : Ctx) (a ts md : PyVal) :
    dictRoundTripOk c' (Event.mkReminderCancelled a ts md now) = true := by
  unfold dictRoundTripOk
  rw [mkReminderCancelled_expand]
  cases hmd : pyTruthy (initMetadata md) <;> simp only [Event.as_dict]
  · rw [base_as_dict_false hmd]
    rfl
  · rw [base_as_dict_true hmd]
    rfl

theorem rt_storyExported (now : Rat) (c' : Ctx) (p ts md : PyVal) :
    dictRoundTripOk c' (Event.mkStoryExported p ts md now) = true := by
  unfold dictRoundTripOk
  rw [mkStoryExported_expand]
  cases hmd : pyTruthy (initMetadata md) <;> simp only [Event.as_dict]
  · rw [base_as_dict_false hmd]
    rfl
  · rw [base_as_dict_true hmd]
    rfl

theorem rt_followupAction (now : Rat) (c' : Ctx) (a ts md : PyVal) :
    dictRoundTripOk c' (Event.mkFollowupAction a ts md now) = true := by
  unfold dictRoundTripOk
  rw [mkFollowupAction_expand]
  cases hmd : pyTruthy (initMetadata md) <;> simp only [Event.as_dict]
  · rw [base_as_dict_false hmd]
    apply eq_followupAction_congr <;> exact PyVal.none
  · rw [base_as_dict_true hmd]
    apply eq_followupAction_congr <;> exact PyVal.none

theorem rt_actionExecuted (now : Rat) (c' : Ctx) (a p c ts md : PyVal) :
    dictRoundTripOk c' (Event.mkActionExecuted a p c ts md now) = true := by
  unfold dictRoundTripOk
  rw [mkActionExecuted_expand]
  cases hmd : pyTruthy (initMetadata md) <;> simp only [Event.as_dict]
  · rw [base_as_dict_false hmd]
    apply eq_actionExecuted_congr <;> exact PyVal.none
  · rw [base_as_dict_true hmd]
    apply eq_actionExecuted_congr <;> exact PyVal.none

theorem rt_agentUttered (now : Rat) (c' : Ctx) (t d ts md : PyVal) :
    dictRoundTripOk c' (Event.mkAgentUttered t d ts md now) = true := by
  unfold dictRoundTripOk
  rw [mkAgentUttered_expand]
  cases hmd : pyTruthy (initMetadata md) <;> simp only [Event.as_dict]
  · rw [base_as_dict_false hmd]
    apply eq_agentUttered_congr <;> exact PyVal.none
  · rw [base_as_dict_true hmd]
    apply eq_agentUttered_congr <;> exact PyVal.none

theorem rt_form (now : Rat) (c' : Ctx) (n ts md : PyVal) :
    dictRoundTripOk c' (Event.mkForm n ts md now) = true := by
  unfold dictRoundTripOk
  rw [mkForm_expand]
  cases hmd : pyTruthy (initMetadata md) <;> simp only [Event.as_dict]
  · rw [base_as_dict_false hmd]
    apply eq_form_congr <;> exact PyVal.none
  · rw [base_as_dict_true hmd]
    apply eq_form_congr <;> exact PyVal.none

theorem rt_formValidation (now : Rat) (c' : Ctx) (v ts md : PyVal) :
    dictRoundTripOk c' (Event.mkFormValidation v ts md now) = true := by
  unfold dictRoundTripOk
  rw [mkFormValidation_expand]
  cases hmd : pyTruthy (initMetadata md) <;> simp only [Event.as_dict]
  · rw [base_as_dict_false hmd]
    rfl
  · rw [base_as_dict_true hmd]
    rfl

theorem rt_actionExecutionRejected (now : Rat) (c' : Ctx)
    (a p c ts md : PyVal) :
    dictRoundTripOk c'
      (Event.mkActionExecutionRejected a p c ts md now) = true := by
  unfold dictRoundTripOk
  rw [mkActionExecutionRejected_expand]
  cases hmd : pyTruthy (initMetadata md) <;> simp only [Event.as_dict]
  · rw [base_as_dict_false hmd]
    apply eq_actionExecutionRejected_congr <;> exact PyVal.none
  · rw [base_as_dict_true hmd]
    apply eq_actionExecutionRejected_congr <;> exact PyVal.none

theorem st_slotSet (now : Rat) (c' : Ctx) (k : String) (v ts md : PyVal) :
    Event.as_story_string (Event.mkSlotSet (.str k) v ts md now) =
      some ("slot" ++ jsonDumps false (.dict [(k, v)])) ∧
    okSingleEventEq (Event.from_story_string "slot" [(k, v)] Option.none c')
      (Event.mkSlotSet (.str k) v ts md now) = true := by
  refine ⟨rfl, ?_⟩
  rw [mkSlotSet_expand]
  apply eq_slotSet_congr <;> exact PyVal.none

theorem st_restarted (now : Rat) (c' : Ctx) (ts md : PyVal) :
    Event.as_story_string (Event.mkRestarted ts md now) = some "restart" ∧
    okSingleEventEq (Event.from_story_string "restart" [] Option.none c')
      (Event.mkRestarted ts md now) = true := ⟨rfl, rfl⟩

theorem st_userUtteranceReverted (now : Rat) (c' : Ctx) (ts md : PyVal) :
    Event.as_story_string (Event.mkUserUtteranceReverted ts md now) =
      some "rewind" ∧
    okSingleEventEq (Event.from_story_string "rewind" [] Option.none c')
      (Event.mkUserUtteranceReverted ts md now) = true := ⟨rfl, rfl⟩

theorem st_allSlotsReset (now : Rat) (c' : Ctx) (ts md : PyVal) :
    Event.as_story_string (Event.mkAllSlotsReset ts md now) =
      some "reset_slots" ∧
    okSingleEventEq (Event.from_story_string "reset_slots" [] Option.none c')
      (Event.mkAllSlotsReset ts md now) = true := ⟨rfl, rfl⟩

theorem st_actionReverted (now : Rat) (c' : Ctx) (ts md : PyVal) :
    Event.as_story_string (Event.mkActionReverted ts md now) = some "undo" ∧
    okSingleEventEq (Event.from_story_string "undo" [] Option.none c')
      (Event.mkActionReverted ts md now) = true := ⟨rfl, rfl⟩

theorem st_conversationPaused (now : Rat) (c' : Ctx) (ts md : PyVal) :
    Event.as_story_string (Event.mkConversationPaused ts md now) =
      some "pause" ∧
    okSingleEventEq (Event.from_story_string "pause" [] Option.none c')
      (Event.mkConversationPaused ts md now) = true := ⟨rfl, rfl⟩

theorem st_conversationResumed (now : Rat) (c' : Ctx) (ts md : PyVal) :
    Event.as_story_string (Event.mkConversationResumed ts md now) =
      some "resume" ∧
    okSingleEventEq (Event.from_story_string "resume" [] Option.none c')
      (Event.mkConversationResumed ts md now) = true := ⟨rfl, rfl⟩

theorem st_storyExported (now : Rat) (c' : Ctx) (p ts md : PyVal) :
    Event.as_story_string (Event.mkStoryExported p ts md now) =
      some "export" ∧
    okSingleEventEq (Event.from_story_string "export" [] Option.none c')
      (Event.mkStoryExported p ts md now) = true := ⟨rfl, rfl⟩

theorem st_reminderScheduled (now : Rat) (c' : Ctx) (fresh : String)
    (a : PyVal) (dt : DateTime) (nm kill ts md : PyVal) :
    Event.as_story_string (Event.mkReminderScheduled a dt nm kill ts md now
        fresh) =
      some ("reminder" ++ jsonDumps true
        (.dict (reminderDataObj a dt (reminderName nm fresh) kill))) ∧
    okSingleEventEq
      (Event.from_story_string "reminder"
        (reminderDataObj a dt (reminderName nm fresh) kill) Option.none c')
      (Event.mkReminderScheduled a dt nm kill ts md now fresh) = true := by
  refine ⟨rfl, ?_⟩
  rw [mkReminderScheduled_expand]
  apply eq_reminderScheduled_renorm <;> first
    | exact PyVal.none
    | exact DateTime.mk ""

theorem st_reminderCancelled (now : Rat) (c' : Ctx) (a ts md : PyVal) :
    Event.as_story_string (Event.mkReminderCancelled a ts md now) =
      some ("cancel_reminder" ++ jsonDumps true (.dict [("action", a)])) ∧
    okSingleEventEq
      (Event.from_story_string "cancel_reminder" [("action", a)]
        Option.none c')
      (Event.mkReminderCancelled a ts md now) = true := ⟨rfl, rfl⟩

theorem st_followupAction (now : Rat) (c' : Ctx) (a ts md : PyVal) :
    Event.as_story_string (Event.mkFollowupAction a ts md now) =
      some ("followup" ++ jsonDumps true (.dict [("name", a)])) ∧
    okSingleEventEq
      (Event.from_story_string "followup" [("name", a)] Option.none c')
      (Event.mkFollowupAction a ts md now) = true := by
  refine ⟨rfl, ?_⟩
  rw [mkFollowupAction_expand]
  apply eq_followupAction_congr <;> exact PyVal.none

theorem st_form (now : Rat) (c' : Ctx) (n ts md : PyVal) :
    Event.as_story_string (Event.mkForm n ts md now) =
      some ("form" ++ jsonDumps true (.dict [("name", n)])) ∧
    okSingleEventEq
      (Event.from_story_string "form" [("name", n)] Option.none c')
      (Event.mkForm n ts md now) = true := by
  refine ⟨rfl, ?_⟩
  rw [mkForm_expand]
  apply eq_form_congr <;> exact PyVal.none

theorem st_actionExecuted (now : Rat) (c' : Ctx) (s : String)
    (p c ts md : PyVal) :
    Event.as_story_string (Event.mkActionExecuted (.str s) p c ts md now) =
      some s ∧
    okSingleEventEq
      (Event.from_story_string "action" [("name", .str s)] Option.none c')
      (Event.mkActionExecuted (.str s) p c ts md now) = true := by
  refine ⟨rfl, ?_⟩
  rw [mkActionExecuted_expand]
  apply eq_actionExecuted_congr <;> exact PyVal.none

/-- C2, as stated, is false: a `UserUttered` event constructed with an
explicit `parse_data` that does not contain its intent fails the dict
round trip — the decoder rebuilds the intent from `parse_data`, so the
decoded event's intent name differs and the variant's `__eq__` rejects
it.  The round trip neither raises nor loses the event; it yields an
unequal event. -/
theorem C2_counterexample :
    dictRoundTripOk ⟨1, "u"⟩
      (Event.mkUserUttered (.str "hi") (.dict [("name", .str "greet")])
        (.list []) (.dict [("text", .str "hi")]) PyVal.none PyVal.none
        PyVal.none PyVal.none 1) = false := rfl

/-- C2 (amended): for every variant, the dict codec round trip
(`from_parameters` after `as_dict`, under any decode context) yields an
event equal to the original under the variant's own `__eq__`, with
`UserUttered` restricted to events constructed with the default
`parse_data`; and the story-string codec round trip holds for every
representable variant whose story parameters are produced in this module
(`slot`, `reminder`, `cancel_reminder`, `followup`, `form`, `action` and
the bare-tag variants) — each such variant's `as_story_string` is the tag
followed by the JSON parameter object (or the bare tag), and decoding
those parameters through `from_story_string` yields an equal event.  The
`user` story line is parsed by the excluded markdown collaborator and is
out of scope. -/
theorem C2_roundtrip_amended :
    (∀ (now : Rat) (c' : Ctx) (t i en ts ic mid md : PyVal),
      dictRoundTripOk c'
        (Event.mkUserUttered t i en PyVal.none ts ic mid md now) = true) ∧
    (∀ (now : Rat) (c' : Ctx) (t d md ts : PyVal),
      dictRoundTripOk c' (Event.mkBotUttered t d md ts now) = true) ∧
    (∀ (now : Rat) (c' : Ctx) (k v ts md : PyVal),
      dictRoundTripOk c' (Event.mkSlotSet k v ts md now) = true) ∧
    (∀ (now : Rat) (c' : Ctx) (ts md : PyVal),
      dictRoundTripOk c' (Event.mkRestarted ts md now) = true) ∧
    (∀ (now : Rat) (c' : Ctx) (ts md : PyVal),
      dictRoundTripOk c' (Event.mkUserUtteranceReverted ts md now) = true) ∧
    (∀ (now : Rat) (c' : Ctx) (ts md : PyVal),
      dictRoundTripOk c' (Event.mkAllSlotsReset ts md now) = true) ∧
    (∀ (now : Rat) (c' : Ctx) (fresh : String) (a : PyVal) (dt : DateTime)
      (nm kill ts md : PyVal),
      dictRoundTripOk c'
        (Event.mkReminderScheduled a dt nm kill ts md now fresh) = true) ∧
    (∀ (now : Rat) (c' : Ctx) (a ts md : PyVal),
      dictRoundTripOk c' (Event.mkReminderCancelled a ts md now) = true) ∧
    (∀ (now : Rat) (c' : Ctx) (ts md : PyVal),
      dictRoundTripOk c' (Event.mkActionReverted ts md now) = true) ∧
    (∀ (now : Rat) (c' : Ctx) (p ts md : PyVal),
      dictRoundTripOk c' (Event.mkStoryExported p ts md now) = true) ∧
    (∀ (now : Rat) (c' : Ctx) (a ts md : PyVal),
      dictRoundTripOk c' (Event.mkFollowupAction a ts md now) = true) ∧
    (∀ (now : Rat) (c' : Ctx) (ts md : PyVal),
      dictRoundTripOk c' (Event.mkConversationPaused ts md now) = true) ∧
    (∀ (now : Rat) (c' : Ctx) (ts md : PyVal),
      dictRoundTripOk c' (Event.mkConversationResumed ts md now) = true) ∧
    (∀ (now : Rat) (c' : Ctx) (a p c ts md : PyVal),
      dictRoundTripOk c' (Event.mkActionExecuted a p c ts md now) = true) ∧
    (∀ (now : Rat) (c' : Ctx) (t d ts md : PyVal),
      dictRoundTripOk c' (Event.mkAgentUttered t d ts md now) = true) ∧
    (∀ (now : Rat) (c' : Ctx) (n ts md : PyVal),
      dictRoundTripOk c' (Event.mkForm n ts md now) = true) ∧
    (∀ (now : Rat) (c' : Ctx) (v ts md : PyVal),
      dictRoundTripOk c' (Event.mkFormValidation v ts md now) = true) ∧
    (∀ (now : Rat) (c' : Ctx) (a p c ts md : PyVal),
      dictRoundTripOk c'
        (Event.mkActionExecutionRejected a p c ts md now) = true) ∧
    (∀ (now : Rat) (c' : Ctx) (k : String) (v ts md : PyVal),
      Event.as_story_string (Event.mkSlotSet (.str k) v ts md now) =
        some ("slot" ++ jsonDumps false (.dict [(k, v)])) ∧
      okSingleEventEq
        (Event.from_story_string "slot" [(k, v)] Option.none c')
        (Event.mkSlotSet (.str k) v ts md now) = true) ∧
    (∀ (now : Rat) (c' : Ctx) (fresh : String) (a : PyVal) (dt : DateTime)
      (nm kill ts md : PyVal),
      Event.as_story_string
          (Event.mkReminderScheduled a dt nm kill ts md now fresh) =
        some ("reminder" ++ jsonDumps true
          (.dict (reminderDataObj a dt (reminderName nm fresh) kill))) ∧
      okSingleEventEq
        (Event.from_story_string "reminder"
          (reminderDataObj a dt (reminderName nm fresh) kill)
          Option.none c')
        (Event.mkReminderScheduled a dt nm kill ts md now fresh) = true) ∧
    (∀ (now : Rat) (c' : Ctx) (a ts md : PyVal),
      Event.as_story_string (Event.mkReminderCancelled a ts md now) =
        some ("cancel_reminder" ++ jsonDumps true (.dict [("action", a)])) ∧
      okSingleEventEq
        (Event.from_story_string "cancel_reminder" [("action", a)]
          Option.none c')
        (Event.mkReminderCancelled a ts md now) = true) ∧
    (∀ (now : Rat) (c' : Ctx) (a ts md : PyVal),
      Event.as_story_string (Event.mkFollowupAction a ts md now) =
        some ("followup" ++ jsonDumps true (.dict [("name", a)])) ∧
      okSingleEventEq
        (Event.from_story_string "followup" [("name", a)] Option.none c')
        (Event.mkFollowupAction a ts md now) = true) ∧
    (∀ (now : Rat) (c' : Ctx) (n ts md : PyVal),
      Event.as_story_string (Event.mkForm n ts md now) =
        some ("form" ++ jsonDumps true (.dict [("name", n)])) ∧
      okSingleEventEq
        (Event.from_story_string "form" [("name", n)] Option.none c')
        (Event.mkForm n ts md now) = true) ∧
    (∀ (now : Rat) (c' : Ctx) (s : String) (p c ts md : PyVal),
      Event.as_story_string
          (Event.mkActionExecuted (.str s) p c ts md now) = some s ∧
      okSingleEventEq
        (Event.from_story_string "action" [("name", .str s)]
          Option.none c')
        (Event.mkActionExecuted (.str s) p c ts md now) = true) ∧
    (∀ (now : Rat) (c' : Ctx) (ts md : PyVal),
      Event.as_story_string (Event.mkRestarted ts md now) = some "restart" ∧
      okSingleEventEq
        (Event.from_story_string "restart" [] Option.none c')
        (Event.mkRestarted ts md now) = true) ∧
    (∀ (now : Rat) (c' : Ctx) (ts md : PyVal),
      Event.as_story_string (Event.mkUserUtteranceReverted ts md now) =
        some "rewind" ∧
      okSingleEventEq
        (Event.from_story_string "rewind" [] Option.none c')
        (Event.mkUserUtteranceReverted ts md now) = true) ∧
    (∀ (now : Rat) (c' : Ctx) (ts md : PyVal),
      Event.as_story_string (Event.mkAllSlotsReset ts md now) =
        some "reset_slots" ∧
      okSingleEventEq
        (Event.from_story_string "reset_slots" [] Option.none c')
        (Event.mkAllSlotsReset ts md now) = true) ∧
    (∀ (now : Rat) (c' : Ctx) (ts md : PyVal),
      Event.as_story_string (Event.mkActionReverted ts md now) =
        some "undo" ∧
      okSingleEventEq
        (Event.from_story_string "undo" [] Option.none c')
        (Event.mkActionReverted ts md now) = true) ∧
    (∀ (now : Rat) (c' : Ctx) (ts md : PyVal),
      Event.as_story_string (Event.mkConversationPaused ts md now) =
        some "pause" ∧
      okSingleEventEq
        (Event.from_story_string "pause" [] Option.none c')
        (Event.mkConversationPaused ts md now) = true) ∧
    (∀ (now : Rat) (c' : Ctx) (ts md : PyVal),
      Event.as_story_string (Event.mkConversationResumed ts md now) =
        some "resume" ∧
      okSingleEventEq
        (Event.from_story_string "resume" [] Option.none c')
        (Event.mkConversationResumed ts md now) = true) ∧
    (∀ (now : Rat) (c' : Ctx) (p ts md : PyVal),
      Event.as_story_string (Event.mkStoryExported p ts md now) =
        some "export" ∧
      okSingleEventEq
        (Event.from_story_string "export" [] Option.none c')
        (Event.mkStoryExported p ts md now) = true) :=
  ⟨rt_userUttered, rt_botUttered, rt_slotSet, rt_restarted,
   rt_userUtteranceReverted, rt_allSlotsReset, rt_reminderScheduled,
   rt_reminderCancelled, rt_actionReverted, rt_storyExported,
   rt_followupAction, rt_conversationPaused, rt_conversationResumed,
   rt_actionExecuted, rt_agentUttered, rt_form, rt_formValidation,
   rt_actionExecutionRejected, st_slotSet, st_reminderScheduled,
   st_reminderCancelled, st_followupAction, st_form, st_actionExecuted,
   st_restarted, st_userUtteranceReverted, st_allSlotsReset,
   st_actionReverted, st_conversationPaused, st_conversationResumed,
   st_storyExported⟩

/-- The batch from C1: two well-formed `slot` records around an unknown
tag. -/
def bogusSlotBatch : List PyDict :=
  [[("event", .str "slot"), ("name", .str "a"), ("value", .num 1)],
   [("event", .str "bogus")],
   [("event", .str "slot"), ("name", .str "b"), ("value", .num 2)]]

/-- The same batch with the legacy `topic` tag in the middle instead. -/
def topicSlotBatch : List PyDict :=
  [[("event", .str "slot"), ("name", .str "a"), ("value", .num 1)],
   [("event", .str "topic")],
   [("event", .str "slot"), ("name", .str "b"), ("value", .num 2)]]

/-- A batch whose first record has no `event` key at all. -/
def noEventKeyBatch : List PyDict :=
  [[("x", .num 1)],
   [("event", .str "slot"), ("name", .str "a"), ("value", .num 1)]]

/-- C1, as stated, is false: `deserialise_events` on the claim's own batch
raises `ValueError` at the `bogus` entry (nothing catches the error
`Event.resolve_by_type` raises for an unknown tag without a fallback), so
the batch does not decode to the two `SlotSet` events. -/
theorem C1_counterexample :
    deserialise_events bogusSlotBatch ⟨1, "u"⟩ =
      .error (.valueError "Unknown event name 'bogus'.") := rfl

/-- C1 (amended): `deserialise_events` skips entries with no `event` key,
and drops — with only a logged warning — entries whose tag resolves to no
event (the legacy `topic` tag, for instance), so the topic-variant of the
claim's batch decodes to exactly the two `SlotSet` events; but an entry
with an unknown tag raises `ValueError` and aborts the whole batch, so
the claim's own batch raises instead of decoding. -/
theorem C1_batch_amended :
    ∀ c : Ctx,
      deserialise_events bogusSlotBatch c =
        .error (.valueError "Unknown event name 'bogus'.") ∧
      deserialise_events topicSlotBatch c =
        .ok [.slotSet (.str "a") (.num 1) (.num c.now) (.dict []),
             .slotSet (.str "b") (.num 2) (.num c.now) (.dict [])] ∧
      deserialise_events noEventKeyBatch c =
        .ok [.slotSet (.str "a") (.num 1) (.num c.now) (.dict [])] :=
  fun _ => ⟨rfl, rfl, rfl⟩

/-- Decoded-event class check: whenever the result holds an event, that
event belongs to class `d`. -/
def decodedClassMatches (d : EventClass) (r : Except PyErr (Option Event)) :
    Bool :=
  match r with
  | .ok (some e) => Event.cls e == d
  | _ => true

/-- C3: decoding a dict whose `event` tag matches no registered variant
raises `ValueError` (the unknown-event-type error) when no fallback class
is supplied; with a fallback class supplied, decoding is delegated to the
fallback's own `_from_parameters`, and any event it returns is an
instance of the fallback class. -/
theorem C3_unknown_tag (tag : PyVal) (d : EventClass) (c : Ctx)
    (h1 : allEventClasses.find?
        (fun cl => PyVal.beq (.str (EventClass.type_name cl)) tag) =
      Option.none)
    (h2 : PyVal.beq tag (.str "topic") = false)
    (h3 : tag ≠ PyVal.none) :
    Event.from_parameters [("event", tag)] Option.none c =
      .error (.valueError ("Unknown event name '" ++ pyStr tag ++ "'.")) ∧
    Event.from_parameters [("event", tag)] (some d) c =
      EventClass.fromParameters d [("event", tag)] c ∧
    decodedClassMatches d
      (Event.from_parameters [("event", tag)] (some d) c) = true := by
  have hres : Event.resolve_by_type tag Option.none =
      .error (.valueError ("Unknown event name '" ++ pyStr tag ++ "'.")) := by
    unfold Event.resolve_by_type
    rw [h1, h2]
    rfl
  have hresd : Event.resolve_by_type tag (some d) = .ok (some d) := by
    unfold Event.resolve_by_type
    rw [h1, h2]
    rfl
  have hget : dictGet [("event", tag)] "event" = tag := rfl
  refine ⟨?_, ?_, ?_⟩
  · unfold Event.from_parameters
    rw [hget, if_neg h3, hres]
    rfl
  · unfold Event.from_parameters
    rw [hget, if_neg h3, hresd]
    rfl
  · unfold Event.from_parameters
    rw [hget, if_neg h3, hresd]
    show decodedClassMatches d
      (EventClass.fromParameters d [("event", tag)] c) = true
    cases d <;> rfl

/-- Witness for C3 at the concrete tag `not_a_real_tag` with fallback
`Restarted`: the hypotheses hold and the conclusion follows. -/
theorem C3_witness :
    (allEventClasses.find?
        (fun cl => PyVal.beq (.str (EventClass.type_name cl))
          (.str "not_a_real_tag")) = Option.none) ∧
    Event.from_parameters [("event", .str "not_a_real_tag")] Option.none
        ⟨1, "u"⟩ =
      .error (.valueError "Unknown event name 'not_a_real_tag'.") ∧
    Event.from_parameters [("event", .str "not_a_real_tag")]
        (some .restarted) ⟨1, "u"⟩ =
      EventClass.fromParameters .restarted
        [("event", .str "not_a_real_tag")] ⟨1, "u"⟩ ∧
    decodedClassMatches .restarted
      (Event.from_parameters [("event", .str "not_a_real_tag")]
        (some .restarted) ⟨1, "u"⟩) = true := by
  have h := C3_unknown_tag (.str "not_a_real_tag") .restarted ⟨1, "u"⟩
    (by decide) (by decide) (by decide)
  exact ⟨by decide, h.1, h.2.1, h.2.2⟩

theorem ifTruthy_true {α : Sort u} {c : Bool} (h : c = true) (a b : α) :
    (if c then a else b) = a := by simp [h]

theorem ifTruthy_false {α : Sort u} {c : Bool} (h : c = false) (a b : α) :
    (if c then a else b) = b := by simp [h]

/-- General expansion of `UserUttered.__init__` into stored attributes. -/
theorem mkUserUttered_expand (t i en pd ts ic mid md : PyVal) (now : Rat) :
    Event.mkUserUttered t i en pd ts ic mid md now =
    .userUttered t (pyOr i (.dict [])) (pyOr en (.list [])) ic mid
      (initTimestamp ts now) (initMetadata md)
      (if pyTruthy pd then pd else
        .dict [("intent", pyOr i (.dict [])),
               ("entities", pyOr en (.list [])), ("text", t),
               ("message_id", mid), ("metadata", initMetadata md)]) := rfl

/-- Metadata-omission contract for one event: if the stored metadata is
truthy the encoded dict holds it verbatim under `metadata`; otherwise the
encoded dict has no `metadata` key at all. -/
def metadataOmissionOk (e : Event) : Bool :=
  if pyTruthy (Event.metadataOf e) then
    PyVal.beq (dictGet (Event.as_dict e) "metadata") (Event.metadataOf e)
  else !(hasKey (Event.as_dict e) "metadata")

/-- The `metadata` key is present in the encoded dict and holds the
stored metadata, empty or not. -/
def metadataAlwaysPresent (e : Event) : Bool :=
  hasKey (Event.as_dict e) "metadata" &&
  PyVal.beq (dictGet (Event.as_dict e) "metadata") (Event.metadataOf e)

theorem metadataOmissionOk_of_true {e : Event}
    (h : pyTruthy (Event.metadataOf e) = true)
    (h2 : dictGet (Event.as_dict e) "metadata" = Event.metadataOf e) :
    metadataOmissionOk e = true := by
  unfold metadataOmissionOk
  rw [ifTruthy_true h, h2, PyVal.beq_refl]

theorem metadataOmissionOk_of_false {e : Event}
    (h : pyTruthy (Event.metadataOf e) = false)
    (h2 : hasKey (Event.as_dict e) "metadata" = false) :
    metadataOmissionOk e = true := by
  unfold metadataOmissionOk
  rw [ifTruthy_false h, h2]
  rfl

theorem metadataAlwaysPresent_of {e : Event}
    (h1 : hasKey (Event.as_dict e) "metadata" = true)
    (h2 : dictGet (Event.as_dict e) "metadata" = Event.metadataOf e) :
    metadataAlwaysPresent e = true := by
  unfold metadataAlwaysPresent
  rw [h1, h2, PyVal.beq_refl]
  rfl

theorem md_slotSet (now : Rat) (k v ts md : PyVal) :
    metadataOmissionOk (Event.mkSlotSet k v ts md now) = true := by
  rw [mkSlotSet_expand]
  cases hmd : pyTruthy (initMetadata md)
  · refine metadataOmissionOk_of_false hmd ?_
    simp only [Event.as_dict]
    rw [base_as_dict_false hmd]
    rfl
  · refine metadataOmissionOk_of_true hmd ?_
    simp only [Event.as_dict]
    rw [base_as_dict_true hmd]
    rfl

theorem md_restarted (now : Rat) (ts md : PyVal) :
    metadataOmissionOk (Event.mkRestarted ts md now) = true := by
  rw [mkRestarted_expand]
  cases hmd : pyTruthy (initMetadata md)
  · refine metadataOmissionOk_of_false hmd ?_
    simp only [Event.as_dict]
    rw [base_as_dict_false hmd]
    rfl
  · refine metadataOmissionOk_of_true hmd ?_
    simp only [Event.as_dict]
    rw [base_as_dict_true hmd]
    rfl

theorem md_userUtteranceReverted (now : Rat) (ts md : PyVal) :
    metadataOmissionOk (Event.mkUserUtteranceReverted ts md now) = true := by
  rw [mkUserUtteranceReverted_expand]
  cases hmd : pyTruthy (initMetadata md)
  · refine metadataOmissionOk_of_false hmd ?_
    simp only [Event.as_dict]
    rw [base_as_dict_false hmd]
    rfl
  · refine metadataOmissionOk_of_true hmd ?_
    simp only [Event.as_dict]
    rw [base_as_dict_true hmd]
    rfl

theorem md_allSlotsReset (now : Rat) (ts md : PyVal) :
    metadataOmissionOk (Event.mkAllSlotsReset ts md now) = true := by
  rw [mkAllSlotsReset_expand]
  cases hmd : pyTruthy (initMetadata md)
  · refine metadataOmissionOk_of_false hmd ?_
    simp only [Event.as_dict]
    rw [base_as_dict_false hmd]
    rfl
  · refine metadataOmissionOk_of_true hmd ?_
    simp only [Event.as_dict]
    rw [base_as_dict_true hmd]
    rfl

theorem md_reminderScheduled (now : Rat) (fresh : String) (a : PyVal)
    (dt : DateTime) (nm kill ts md : PyVal) :
    metadataOmissionOk
      (Event.mkReminderScheduled a dt nm kill ts md now fresh) = true := by
  rw [mkReminderScheduled_expand]
  cases hmd : pyTruthy (initMetadata md)
  · refine metadataOmissionOk_of_false hmd ?_
    simp only [Event.as_dict]
    rw [base_as_dict_false hmd]
    rfl
  · refine metadataOmissionOk_of_true hmd ?_
    simp only [Event.as_dict]
    rw [base_as_dict_true hmd]
    rfl

theorem md_reminderCancelled (now : Rat) (a ts md : PyVal) :
    metadataOmissionOk (Event.mkReminderCancelled a ts md now) = true := by
  rw [mkReminderCancelled_expand]
  cases hmd : pyTruthy (initMetadata md)
  · refine metadataOmissionOk_of_false hmd ?_
    simp only [Event.as_dict]
    rw [base_as_dict_false hmd]
    rfl
  · refine metadataOmissionOk_of_true hmd ?_
    simp only [Event.as_dict]
    rw [base_as_dict_true hmd]
    rfl

theorem md_actionReverted (now : Rat) (ts md : PyVal) :
    metadataOmissionOk (Event.mkActionReverted ts md now) = true := by
  rw [mkActionReverted_expand]
  cases hmd : pyTruthy (initMetadata md)
  · refine metadataOmissionOk_of_false hmd ?_
    simp only [Event.as_dict]
    rw [base_as_dict_false hmd]
    rfl
  · refine metadataOmissionOk_of_true hmd ?_
    simp only [Event.as_dict]
    rw [base_as_dict_true hmd]
    rfl

theorem md_storyExported (now : Rat) (p ts md : PyVal) :
    metadataOmissionOk (Event.mkStoryExported p ts md now) = true := by
  rw [mkStoryExported_expand]
  cases hmd : pyTruthy (initMetadata md)
  · refine metadataOmissionOk_of_false hmd ?_
    simp only [Event.as_dict]
    rw [base_as_dict_false hmd]
    rfl
  · refine metadataOmissionOk_of_true hmd ?_
    simp only [Event.as_dict]
    rw [base_as_dict_true hmd]
    rfl

theorem md_followupAction (now : Rat) (a ts md : PyVal) :
    metadataOmissionOk (Event.mkFollowupAction a ts md now) = true := by
  rw [mkFollowupAction_expand]
  cases hmd : pyTruthy (initMetadata md)
  · refine metadataOmissionOk_of_false hmd ?_
    simp only [Event.as_dict]
    rw [base_as_dict_false hmd]
    rfl
  · refine metadataOmissionOk_of_true hmd ?_
    simp only [Event.as_dict]
    rw [base_as_dict_true hmd]
    rfl

theorem md_conversationPaused (now : Rat) (ts md : PyVal) :
    metadataOmissionOk (Event.mkConversationPaused ts md now) = true := by
  rw [mkConversationPaused_expand]
  cases hmd : pyTruthy (initMetadata md)
  · refine metadataOmissionOk_of_false hmd ?_
    simp only [Event.as_dict]
    rw [base_as_dict_false hmd]
    rfl
  · refine metadataOmissionOk_of_true hmd ?_
    simp only [Event.as_dict]
    rw [base_as_dict_true hmd]
    rfl

theorem md_conversationResumed (now : Rat) (ts md : PyVal) :
    metadataOmissionOk (Event.mkConversationResumed ts md now) = true := by
  rw [mkConversationResumed_expand]
  cases hmd : pyTruthy (initMetadata md)
  · refine metadataOmissionOk_of_false hmd ?_
    simp only [Event.as_dict]
    rw [base_as_dict_false hmd]
    rfl
  · refine metadataOmissionOk_of_true hmd ?_
    simp only [Event.as_dict]
    rw [base_as_dict_true hmd]
    rfl

theorem md_actionExecuted (now : Rat) (a p c ts md : PyVal) :
    metadataOmissionOk (Event.mkActionExecuted a p c ts md now) = true := by
  rw [mkActionExecuted_expand]
  cases hmd : pyTruthy (initMetadata md)
  · refine metadataOmissionOk_of_false hmd ?_
    simp only [Event.as_dict]
    rw [base_as_dict_false hmd]
    rfl
  · refine metadataOmissionOk_of_true hmd ?_
    simp only [Event.as_dict]
    rw [base_as_dict_true hmd]
    rfl

theorem md_agentUttered (now : Rat) (t d ts md : PyVal) :
    metadataOmissionOk (Event.mkAgentUttered t d ts md now) = true := by
  rw [mkAgentUttered_expand]
  cases hmd : pyTruthy (initMetadata md)
  · refine metadataOmissionOk_of_false hmd ?_
    simp only [Event.as_dict]
    rw [base_as_dict_false hmd]
    rfl
  · refine metadataOmissionOk_of_true hmd ?_
    simp only [Event.as_dict]
    rw [base_as_dict_true hmd]
    rfl

theorem md_form (now : Rat) (n ts md : PyVal) :
    metadataOmissionOk (Event.mkForm n ts md now) = true := by
  rw [mkForm_expand]
  cases hmd : pyTruthy (initMetadata md)
  · refine metadataOmissionOk_of_false hmd ?_
    simp only [Event.as_dict]
    rw [base_as_dict_false hmd]
    rfl
  · refine metadataOmissionOk_of_true hmd ?_
    simp only [Event.as_dict]
    rw [base_as_dict_true hmd]
    rfl

theorem md_formValidation (now : Rat) (v ts md : PyVal) :
    metadataOmissionOk (Event.mkFormValidation v ts md now) = true := by
  rw [mkFormValidation_expand]
  cases hmd : pyTruthy (initMetadata md)
  · refine metadataOmissionOk_of_false hmd ?_
    simp only [Event.as_dict]
    rw [base_as_dict_false hmd]
    rfl
  · refine metadataOmissionOk_of_true hmd ?_
    simp only [Event.as_dict]
    rw [base_as_dict_true hmd]
    rfl

theorem md_actionExecutionRejected (now : Rat) (a p c ts md : PyVal) :
    metadataOmissionOk
      (Event.mkActionExecutionRejected a p c ts md now) = true := by
  rw [mkActionExecutionRejected_expand]
  cases hmd : pyTruthy (initMetadata md)
  · refine metadataOmissionOk_of_false hmd ?_
    simp only [Event.as_dict]
    rw [base_as_dict_false hmd]
    rfl
  · refine metadataOmissionOk_of_true hmd ?_
    simp only [Event.as_dict]
    rw [base_as_dict_true hmd]
    rfl

theorem md_userUttered (now : Rat) (t i en pd ts ic mid md : PyVal) :
    metadataAlwaysPresent (Event.mkUserUttered t i en pd ts ic mid md now) =
      true := by
  rw [mkUserUttered_expand]
  cases hmd : pyTruthy (initMetadata md)
  · refine metadataAlwaysPresent_of ?_ ?_ <;>
      (simp only [Event.as_dict, Event.metadataOf];
       rw [base_as_dict_false hmd]) <;> rfl
  · refine metadataAlwaysPresent_of ?_ ?_ <;>
      (simp only [Event.as_dict, Event.metadataOf];
       rw [base_as_dict_true hmd]) <;> rfl

theorem md_botUttered (now : Rat) (t d md ts : PyVal) :
    metadataAlwaysPresent (Event.mkBotUttered t d md ts now) = true := by
  rw [mkBotUttered_expand]
  cases hmd : pyTruthy (initMetadata md)
  · refine metadataAlwaysPresent_of ?_ ?_ <;>
      (simp only [Event.as_dict, Event.metadataOf];
       rw [base_as_dict_false hmd]) <;> rfl
  · refine metadataAlwaysPresent_of ?_ ?_ <;>
      (simp only [Event.as_dict, Event.metadataOf];
       rw [base_as_dict_true hmd]) <;> rfl

/-- C4, as stated, is false: a `UserUttered` event with empty metadata
still carries a `metadata` key in its `as_dict` encoding (the override
puts `metadata` into its update unconditionally), so the "no metadata key
at all" part fails for this variant. -/
theorem C4_counterexample :
    Event.metadataOf (Event.mkUserUttered PyVal.none PyVal.none PyVal.none
        PyVal.none PyVal.none PyVal.none PyVal.none PyVal.none 1) =
      .dict [] ∧
    hasKey (Event.as_dict (Event.mkUserUttered PyVal.none PyVal.none
        PyVal.none PyVal.none PyVal.none PyVal.none PyVal.none PyVal.none 1))
      "metadata" = true := ⟨rfl, rfl⟩

/-- C4 (amended): every variant except `UserUttered` and `BotUttered`
omits the `metadata` key when the stored metadata is empty and includes
the stored metadata verbatim when it is non-empty; `UserUttered` and
`BotUttered` always include the `metadata` key, holding the stored
metadata verbatim (the empty dict included). -/
theorem C4_metadata_amended :
    (∀ (now : Rat) (k v ts md : PyVal),
      metadataOmissionOk (Event.mkSlotSet k v ts md now) = true) ∧
    (∀ (now : Rat) (ts md : PyVal),
      metadataOmissionOk (Event.mkRestarted ts md now) = true) ∧
    (∀ (now : Rat) (ts md : PyVal),
      metadataOmissionOk (Event.mkUserUtteranceReverted ts md now) = true) ∧
    (∀ (now : Rat) (ts md : PyVal),
      metadataOmissionOk (Event.mkAllSlotsReset ts md now) = true) ∧
    (∀ (now : Rat) (fresh : String) (a : PyVal) (dt : DateTime)
      (nm kill ts md : PyVal),
      metadataOmissionOk
        (Event.mkReminderScheduled a dt nm kill ts md now fresh) = true) ∧
    (∀ (now : Rat) (a ts md : PyVal),
      metadataOmissionOk (Event.mkReminderCancelled a ts md now) = true) ∧
    (∀ (now : Rat) (ts md : PyVal),
      metadataOmissionOk (Event.mkActionReverted ts md now) = true) ∧
    (∀ (now : Rat) (p ts md : PyVal),
      metadataOmissionOk (Event.mkStoryExported p ts md now) = true) ∧
    (∀ (now : Rat) (a ts md : PyVal),
      metadataOmissionOk (Event.mkFollowupAction a ts md now) = true) ∧
    (∀ (now : Rat) (ts md : PyVal),
      metadataOmissionOk (Event.mkConversationPaused ts md now) = true) ∧
    (∀ (now : Rat) (ts md : PyVal),
      metadataOmissionOk (Event.mkConversationResumed ts md now) = true) ∧
    (∀ (now : Rat) (a p c ts md : PyVal),
      metadataOmissionOk (Event.mkActionExecuted a p c ts md now) = true) ∧
    (∀ (now : Rat) (t d ts md : PyVal),
      metadataOmissionOk (Event.mkAgentUttered t d ts md now) = true) ∧
    (∀ (now : Rat) (n ts md : PyVal),
      metadataOmissionOk (Event.mkForm n ts md now) = true) ∧
    (∀ (now : Rat) (v ts md : PyVal),
      metadataOmissionOk (Event.mkFormValidation v ts md now) = true) ∧
    (∀ (now : Rat) (a p c ts md : PyVal),
      metadataOmissionOk
        (Event.mkActionExecutionRejected a p c ts md now) = true) ∧
    (∀ (now : Rat) (t i en pd ts ic mid md : PyVal),
      metadataAlwaysPresent
        (Event.mkUserUttered t i en pd ts ic mid md now) = true) ∧
    (∀ (now : Rat) (t d md ts : PyVal),
      metadataAlwaysPresent (Event.mkBotUttered t d md ts now) = true) :=
  ⟨md_slotSet, md_restarted, md_userUtteranceReverted, md_allSlotsReset,
   md_reminderScheduled, md_reminderCancelled, md_actionReverted,
   md_storyExported, md_followupAction, md_conversationPaused,
   md_conversationResumed, md_actionExecuted, md_agentUttered, md_form,
   md_formValidation, md_actionExecutionRejected, md_userUttered,
   md_botUttered⟩

/-- C5, as stated, is false: decoding `{"event": "slot"}` — a resolved
variant with both required fields missing — raises nothing and returns
the degenerate event `SlotSet(None, None)` instead of a typed
malformed-event error. -/
theorem C5_counterexample :
    Event.from_parameters [("event", .str "slot")] Option.none ⟨1, "u"⟩ =
      .ok (some (.slotSet PyVal.none PyVal.none (.num 1) (.dict []))) := rfl

/-- C5 (amended): variant decoders read their fields with `.get`, which
never raises `KeyError`, so the `try/except KeyError` wrappers are
unreachable: `SlotSet._from_parameters` always succeeds, producing an
event whose missing fields are `None` (a degenerate `SlotSet(None, None)`
for `{"event": "slot"}`); and a `ReminderScheduled` record with a missing
`date_time` propagates the raw `TypeError` from the external date parser
rather than a typed malformed-event error. -/
theorem C5_missing_fields_amended :
    (∀ (params : PyDict) (c : Ctx),
      EventClass.fromParameters .slotSet params c =
        .ok (some (Event.mkSlotSet (dictGet params "name")
          (dictGet params "value") (dictGet params "timestamp")
          (dictGet params "metadata") c.now))) ∧
    (∀ c : Ctx,
      Event.from_parameters [("event", .str "slot")] Option.none c =
        .ok (some (.slotSet PyVal.none PyVal.none (.num c.now)
          (.dict [])))) ∧
    (∀ c : Ctx,
      Event.from_parameters [("event", .str "reminder")] Option.none c =
        .error (.typeError
          "Parser must be a str or character stream, not NoneType")) :=
  ⟨fun _ _ => rfl, fun _ => rfl, fun _ => rfl⟩

/-- C6: the legacy `topic` tag resolves to no class and decoding
`{"event": "topic"}` returns no event and raises no error — with or
without a fallback class supplied (the `topic` check precedes the
fallback check). -/
theorem C6_topic_no_event :
    (∀ d : Option EventClass,
      Event.resolve_by_type (.str "topic") d = .ok Option.none) ∧
    (∀ (d : Option EventClass) (c : Ctx),
      Event.from_parameters [("event", .str "topic")] d c =
        .ok Option.none) :=
  ⟨fun _ => rfl, fun _ _ => rfl⟩

/-- C7: story-string decoding under the `slot` tag yields one `SlotSet`
per key of the parameter map, in the map's order; in particular
`{"a": 1, "b": 2}` yields exactly `SlotSet("a", 1)` then
`SlotSet("b", 2)`. -/
theorem C7_multi_slot :
    (∀ (k : String) (v : PyVal) (rest : PyDict) (c : Ctx),
      Event.from_story_string "slot" ((k, v) :: rest) Option.none c =
        .ok (some (((k, v) :: rest).map (fun kv =>
          Event.mkSlotSet (.str kv.1) kv.2 PyVal.none PyVal.none c.now)))) ∧
    (∀ c : Ctx,
      Event.from_story_string "slot" [("a", .num 1), ("b", .num 2)]
          Option.none c =
        .ok (some [Event.mkSlotSet (.str "a") (.num 1) PyVal.none
            PyVal.none c.now,
          Event.mkSlotSet (.str "b") (.num 2) PyVal.none PyVal.none
            c.now])) :=
  ⟨fun _ _ _ _ => rfl, fun _ => rfl⟩

/-- C8, as stated, is false: `FollowupAction.as_story_string` uses
`json.dumps` with its default ASCII-safe escaping, so the non-ASCII
character `é` in the action name is emitted as the escape `\u00e9` and
does not appear literally anywhere in the encoded line. -/
theorem C8_counterexample :
    Event.as_story_string
        (Event.mkFollowupAction (.str "é") PyVal.none PyVal.none 1) =
      some "followup\x7b\"name\": \"\\u00e9\"\x7d" ∧
    "followup\x7b\"name\": \"\\u00e9\"\x7d".toList.contains 'é' = false :=
  ⟨rfl, by decide⟩

/-- C8 (amended): each of the keyed variants `slot`, `reminder`,
`cancel_reminder` and `followup` encodes as the tag immediately followed
by a JSON-encoded parameter object, but only `slot` passes
`ensure_ascii=False` (non-ASCII preserved literally); `reminder`,
`cancel_reminder` and `followup` use the default ASCII-safe mode, which
`\u`-escapes non-ASCII characters. -/
theorem C8_story_encoding_amended :
    (∀ k v a b : PyVal, Event.as_story_string (.slotSet k v a b) =
      some ("slot" ++ jsonDumps false (.dict [(pyJsonKey k, v)]))) ∧
    (∀ (a : PyVal) (dt : DateTime) (n kill ts md : PyVal),
      Event.as_story_string (.reminderScheduled a dt n kill ts md) =
        some ("reminder" ++ jsonDumps true
          (.dict (reminderDataObj a dt n kill)))) ∧
    (∀ a ts md : PyVal, Event.as_story_string (.reminderCancelled a ts md) =
      some ("cancel_reminder" ++ jsonDumps true (.dict [("action", a)]))) ∧
    (∀ a ts md : PyVal, Event.as_story_string (.followupAction a ts md) =
      some ("followup" ++ jsonDumps true (.dict [("name", a)]))) ∧
    Event.as_story_string (.slotSet (.str "x") (.str "é") (.num 1)
        (.dict [])) = some "slot\x7b\"x\": \"é\"\x7d" ∧
    Event.as_story_string (.followupAction (.str "é") (.num 1)
        (.dict [])) = some "followup\x7b\"name\": \"\\u00e9\"\x7d" ∧
    Event.as_story_string (.reminderCancelled (.str "café") (.num 1)
        (.dict [])) =
      some "cancel_reminder\x7b\"action\": \"caf\\u00e9\"\x7d" ∧
    Event.as_story_string (.reminderScheduled (.str "café")
        ⟨"2020-01-01T00:00:00"⟩ (.str "n") (.bool true) (.num 1)
        (.dict [])) =
      some ("reminder\x7b\"action\": \"caf\\u00e9\", " ++
        "\"date_time\": \"2020-01-01T00:00:00\", \"name\": \"n\", " ++
        "\"kill_on_user_msg\": true\x7d") :=
  ⟨fun _ _ _ _ => rfl, fun _ _ _ _ _ _ => rfl, fun _ _ _ => rfl,
   fun _ _ _ => rfl, rfl, rfl, rfl, rfl⟩

/-- C9: `ReminderCancelled.__eq__` and `FormValidation.__eq__` check only
the type, so any two events of the variant are equal, while their
`__hash__` feeds the action name (resp. the validate flag) to `hash` —
hence pairs of events with `e1 == e2` but different hash inputs exist for
both variants. -/
theorem C9_eq_without_hash_agreement :
    (∀ a a' ts md ts' md' : PyVal,
      Event.eq (.reminderCancelled a ts md)
        (.reminderCancelled a' ts' md') = true) ∧
    (∀ a ts md : PyVal, Event.hashKey (.reminderCancelled a ts md) = a) ∧
    (∀ v v' ts md ts' md' : PyVal,
      Event.eq (.formValidation v ts md)
        (.formValidation v' ts' md') = true) ∧
    (∀ v ts md : PyVal, Event.hashKey (.formValidation v ts md) = v) ∧
    (Event.eq (.reminderCancelled (.str "a") (.num 1) (.dict []))
        (.reminderCancelled (.str "b") (.num 1) (.dict [])) = true ∧
      Event.hashKey (.reminderCancelled (.str "a") (.num 1) (.dict [])) ≠
        Event.hashKey (.reminderCancelled (.str "b") (.num 1)
          (.dict []))) ∧
    (Event.eq (.formValidation (.bool true) (.num 1) (.dict []))
        (.formValidation (.bool false) (.num 1) (.dict [])) = true ∧
      Event.hashKey (.formValidation (.bool true) (.num 1) (.dict [])) ≠
        Event.hashKey (.formValidation (.bool false) (.num 1)
          (.dict []))) :=
  ⟨fun _ _ _ _ _ _ => rfl, fun _ _ _ => rfl, fun _ _ _ _ _ _ => rfl,
   fun _ _ _ => rfl, ⟨rfl, by decide⟩, ⟨rfl, by decide⟩⟩

/-- C10: `Event.__init__` applies the timestamp default with `timestamp or
time.time()`, so any falsy timestamp — `None` or zero — is replaced by
the clock value at construction, for every variant; a non-zero (truthy)
timestamp passes through construction unchanged. -/
theorem C10_falsy_timestamp (q : Rat) (hq : q ≠ 0) :
    (∀ now : Rat, initTimestamp (.num q) now = .num q) ∧
    (∀ now : Rat, initTimestamp PyVal.none now = .num now) ∧
    (∀ now : Rat, initTimestamp (.num 0) now = .num now) ∧
    (∀ (ts : PyVal) (now : Rat), pyTruthy ts = false →
      initTimestamp ts now = .num now) ∧
    (∀ (now : Rat) (t i en pd ic mid md : PyVal),
      Event.timestampOf (Event.mkUserUttered t i en pd (.num 0) ic mid md
        now) = .num now ∧
      Event.timestampOf (Event.mkUserUttered t i en pd (.num q) ic mid md
        now) = .num q) ∧
    (∀ (now : Rat) (t d md : PyVal),
      Event.timestampOf (Event.mkBotUttered t d md (.num 0) now) =
        .num now ∧
      Event.timestampOf (Event.mkBotUttered t d md (.num q) now) =
        .num q) ∧
    (∀ (now : Rat) (k v md : PyVal),
      Event.timestampOf (Event.mkSlotSet k v (.num 0) md now) = .num now ∧
      Event.timestampOf (Event.mkSlotSet k v (.num q) md now) = .num q) ∧
    (∀ (now : Rat) (md : PyVal),
      Event.timestampOf (Event.mkRestarted (.num 0) md now) = .num now ∧
      Event.timestampOf (Event.mkRestarted (.num q) md now) = .num q) ∧
    (∀ (now : Rat) (md : PyVal),
      Event.timestampOf (Event.mkUserUtteranceReverted (.num 0) md now) =
        .num now ∧
      Event.timestampOf (Event.mkUserUtteranceReverted (.num q) md now) =
        .num q) ∧
    (∀ (now : Rat) (md : PyVal),
      Event.timestampOf (Event.mkAllSlotsReset (.num 0) md now) =
        .num now ∧
      Event.timestampOf (Event.mkAllSlotsReset (.num q) md now) =
        .num q) ∧
    (∀ (now : Rat) (fresh : String) (a : PyVal) (dt : DateTime)
        (nm kill md : PyVal),
      Event.timestampOf (Event.mkReminderScheduled a dt nm kill (.num 0) md
        now fresh) = .num now ∧
      Event.timestampOf (Event.mkReminderScheduled a dt nm kill (.num q) md
        now fresh) = .num q) ∧
    (∀ (now : Rat) (a md : PyVal),
      Event.timestampOf (Event.mkReminderCancelled a (.num 0) md now) =
        .num now ∧
      Event.timestampOf (Event.mkReminderCancelled a (.num q) md now) =
        .num q) ∧
    (∀ (now : Rat) (md : PyVal),
      Event.timestampOf (Event.mkActionReverted (.num 0) md now) =
        .num now ∧
      Event.timestampOf (Event.mkActionReverted (.num q) md now) =
        .num q) ∧
    (∀ (now : Rat) (p md : PyVal),
      Event.timestampOf (Event.mkStoryExported p (.num 0) md now) =
        .num now ∧
      Event.timestampOf (Event.mkStoryExported p (.num q) md now) =
        .num q) ∧
    (∀ (now : Rat) (a md : PyVal),
      Event.timestampOf (Event.mkFollowupAction a (.num 0) md now) =
        .num now ∧
      Event.timestampOf (Event.mkFollowupAction a (.num q) md now) =
        .num q) ∧
    (∀ (now : Rat) (md : PyVal),
      Event.timestampOf (Event.mkConversationPaused (.num 0) md now) =
        .num now ∧
      Event.timestampOf (Event.mkConversationPaused (.num q) md now) =
        .num q) ∧
    (∀ (now : Rat) (md : PyVal),
      Event.timestampOf (Event.mkConversationResumed (.num 0) md now) =
        .num now ∧
      Event.timestampOf (Event.mkConversationResumed (.num q) md now) =
        .num q) ∧
    (∀ (now : Rat) (a p c md : PyVal),
      Event.timestampOf (Event.mkActionExecuted a p c (.num 0) md now) =
        .num now ∧
      Event.timestampOf (Event.mkActionExecuted a p c (.num q) md now) =
        .num q) ∧
    (∀ (now : Rat) (t d md : PyVal),
      Event.timestampOf (Event.mkAgentUttered t d (.num 0) md now) =
        .num now ∧
      Event.timestampOf (Event.mkAgentUttered t d (.num q) md now) =
        .num q) ∧
    (∀ (now : Rat) (n md : PyVal),
      Event.timestampOf (Event.mkForm n (.num 0) md now) = .num now ∧
      Event.timestampOf (Event.mkForm n (.num q) md now) = .num q) ∧
    (∀ (now : Rat) (v md : PyVal),
      Event.timestampOf (Event.mkFormValidation v (.num 0) md now) =
        .num now ∧
      Event.timestampOf (Event.mkFormValidation v (.num q) md now) =
        .num q) ∧
    (∀ (now : Rat) (a p c md : PyVal),
      Event.timestampOf
          (Event.mkActionExecutionRejected a p c (.num 0) md now) =
        .num now ∧
      Event.timestampOf
          (Event.mkActionExecutionRejected a p c (.num q) md now) =
        .num q) := by
  have hq' : pyTruthy (.num q) = true := by
    simp [pyTruthy, bne_iff_ne, hq]
  have hz : ∀ now : Rat, initTimestamp (.num q) now = .num q := by
    intro now
    unfold initTimestamp pyOr
    rw [ifTruthy_true hq']
  have hfalsy : ∀ (ts : PyVal) (now : Rat), pyTruthy ts = false →
      initTimestamp ts now = .num now := by
    intro ts now h
    unfold initTimestamp pyOr
    rw [ifTruthy_false h]
  refine ⟨hz, fun now => rfl, fun now => rfl, hfalsy, ?_, ?_, ?_, ?_, ?_,
    ?_, ?_, ?_, ?_, ?_, ?_, ?_, ?_, ?_, ?_, ?_, ?_, ?_⟩ <;>
    (intros; exact ⟨rfl, hz _⟩)

/-- Witness for C10 at `q = 5`: the hypothesis holds and an explicit
timestamp of `5` survives construction while `0` is replaced by the
clock. -/
theorem C10_witness :
    ((5 : Rat) ≠ 0) ∧ initTimestamp (.num 5) 1 = .num 5 := by
  have h5 : (5 : Rat) ≠ 0 := by norm_num
  exact ⟨h5, (C10_falsy_timestamp 5 h5).1 1⟩

end Rasa
